import Mathlib

/-!
# SDL_kitchensink: presentation clock, pull API, decoder queues, worker loops, format tables and construction

A shallow embedding of `src/kitplayer.c`, `src/internal/kitdecthread.c`,
`src/internal/kitvideodecthread.c`, `src/internal/kitaudiodecthread.c`,
`src/internal/kitavutils.c` and `src/internal/kitdemuxthread.c`.

Conventions of the embedding

* C `double` values (wall clock, `clock_sync`, `pause_start`, PTS) are exact
  rationals; `0.01` and `0.05` are `1/100` and `5/100`.
* C `int` values are `Int`, and `/` on `int` truncates toward zero
  (`Int.tdiv`). Sums and products of the small fields of a format (`bytes`,
  `channels`, `samplerate`) are taken in `Int`; the byte count that
  `Kit_GetAudioDecoderData` returns from its silence branch is reduced to
  32 bits (`wrapInt32`), since it leaves the `int` range for inputs the other
  lines accept.
* The conversion `double → int` in `Kit_GetAudioDecoderData` is the parameter
  `toInt`: it stands for what the machine delivers for the product it
  computed, rounding included. `doubleToInt` is that conversion on x86-64 for
  a product that the `double` holds exactly: truncation toward zero when the
  value fits an `int`, and `INT_MIN` otherwise.
* A call reads the wall clock `Kit_GetSystemTime()` at most once; the reading
  is the explicit parameter `now`.
* The view is single-threaded: `SDL_LockMutex` succeeds, and signalling a
  condition variable changes no data.
* A pointer to a queue item is modelled by the item. A local `packet` pointer
  obtained from a peek aliases the head item of the output queue.
* Loops that the C code runs without a bound take a `fuel` argument counting
  iterations; `Outcome.out_of_fuel` means the loop was still running.
* Construction and teardown run in a `World`: the list of live resources and
  the last error string. The answers of `calloc`, the codec library and SDL
  are inputs of the model.
* A writer that finds its queue full waits on the condition variable; the wait
  is taken to return, and the parameter `wake` tells what the queue holds then.
* Stores that other threads make to a worker's state atom between two reads of
  the worker are the parameter `ext` of the worker loop.
* The decoders of the codec library are parameters of the packet handlers: a
  function from the number of the decode call and the packet to the answer of
  that call.
-/

namespace Kitchensink

/-! ## Outcomes of a call -/

/-- The result of running a C function of the model. -/
inductive Outcome (α : Type) where
  /-- The call returned. -/
  | done (r : α)
  /-- The call aborted: failed `assert`, NULL dereference or integer division by zero. -/
  | crash
  /-- A `double` computation left the finite numbers (division by `0.0`). -/
  | non_finite
  /-- The loop had not finished when the iteration budget was used up. -/
  | out_of_fuel
deriving DecidableEq, Repr

/-! ## Source handle and player (kitsource.h, kitplayer.c) -/

/-- The fields of the external `AVFormatContext` that the core reads: the
number of streams of the container and its duration in `AV_TIME_BASE` units. -/
structure AVFormatContext where
  nb_streams : Nat
  duration : Int
deriving DecidableEq, Repr

/-- The struct `Kit_Source` of `kitsource.h`: the three selected stream indices
(`-1` means unset) and the container context `format_ctx`. -/
structure Kit_Source where
  astream_idx : Int
  vstream_idx : Int
  sstream_idx : Int
  format_ctx : AVFormatContext := { nb_streams := 0, duration := 0 }
deriving DecidableEq, Repr

/-- Modelled from the spec: the enum `Kit_PlayerState` is declared in
`kitplayer.h`, which is not among the sources; the spec gives
`state ∈ {stopped, paused, playing}`. -/
inductive Kit_PlayerState where
  | KIT_STOPPED
  | KIT_PLAYING
  | KIT_PAUSED
deriving DecidableEq, Repr

/-! ## Bounded packet queue (kitbuffer.h) and decoder thread (kitdecthread.c) -/

/-- Modelled from the spec: `Kit_Buffer` (`kitbuffer.c` is not among the
sources). The spec describes a fixed-capacity FIFO of packet pointers;
`items` lists them head first, `size` is the capacity. -/
structure Kit_Buffer (α : Type) where
  size : Nat
  items : List α
deriving DecidableEq, Repr

/-- Modelled from the spec: `Kit_ReadBuffer`, the queue operation
`read() → p | ∅`: on an empty queue it returns NULL, otherwise it dequeues the
head and hands it out. -/
def Kit_ReadBuffer {α : Type} (buffer : Kit_Buffer α) : Option α × Kit_Buffer α :=
  match buffer.items with
  | [] => (none, buffer)
  | p :: rest => (some p, { buffer with items := rest })

/-- Modelled from the spec: `Kit_PeekBuffer`, the queue operation
`peek() → p | ∅`: the head without dequeue, NULL on an empty queue. -/
def Kit_PeekBuffer {α : Type} (buffer : Kit_Buffer α) : Option α :=
  buffer.items.head?

/-- The enum `Kit_DecoderThreadStatus` of `kitdecthread.c`. -/
inductive Kit_DecoderThreadStatus where
  | KIT_DECTHREAD_CLOSED
  | KIT_DECTHREAD_RUNNING
  | KIT_DECTHREAD_FLUSHING
  | KIT_DECTHREAD_CLOSING
deriving DecidableEq, Repr

/-- The fields of the external `AVPacket` that the pipeline reads: the stream
index, the number of bytes left to decode, and the decoding timestamp (`none`
is `AV_NOPTS_VALUE`). -/
structure AVPacket where
  stream_index : Int
  size : Int
  dts : Option Int := some 0
deriving DecidableEq, Repr

/-- The struct `Kit_DecoderThread` of `kitdecthread.h`: the state atom, the two
queues `buffers[KIT_INPUT]` and `buffers[KIT_OUTPUT]`, the stream index and the
decoder-specific `local` blob. Output items have type `α`, the blob type `L`. -/
structure Kit_DecoderThread (α : Type) (L : Type) where
  state : Kit_DecoderThreadStatus
  input : Kit_Buffer AVPacket
  output : Kit_Buffer α
  stream_index : Int
  «local» : L
deriving DecidableEq, Repr

/-- The function `_ThreadRead(num, thread, packet)` acting on `buffer = thread->buffers[num]`.
`out` tells whether the `packet` argument is non-NULL. The result is the
return value, the pointer stored in `*packet` (if any) and the buffer after the
call. `Kit_ReadBuffer` is called only inside `if(packet != NULL)`. -/
def _ThreadRead {α : Type} (buffer : Kit_Buffer α) (out : Bool) :
    Int × Option α × Kit_Buffer α :=
  if out then
    match Kit_ReadBuffer buffer with
    | (none, b) => (1, none, b)
    | (some p, b) => (0, some p, b)
  else
    (0, none, buffer)

/-- The function `_ThreadPeek(num, thread, packet)` acting on `buffer = thread->buffers[num]`:
`some p` stands for return value 0 with `*packet = p`, `none` for return
value 1 with `*packet = NULL`. -/
def _ThreadPeek {α : Type} (buffer : Kit_Buffer α) : Option α :=
  Kit_PeekBuffer buffer

/-- The function `Kit_ThreadReadOutput(thread, &packet)`. -/
def Kit_ThreadReadOutput {α L : Type} (thread : Kit_DecoderThread α L) :
    Int × Option α × Kit_DecoderThread α L :=
  let r := _ThreadRead thread.output true
  (r.1, r.2.1, { thread with output := r.2.2 })

/-- The function `Kit_ThreadPeekOutput(thread, &packet)`. -/
def Kit_ThreadPeekOutput {α L : Type} (thread : Kit_DecoderThread α L) : Option α :=
  _ThreadPeek thread.output

/-- The function `Kit_ThreadAdvanceOutput(thread)`, that is `_ThreadRead(KIT_OUTPUT, thread, NULL)`. -/
def Kit_ThreadAdvanceOutput {α L : Type} (thread : Kit_DecoderThread α L) :
    Int × Kit_DecoderThread α L :=
  let r := _ThreadRead thread.output false
  (r.1, { thread with output := r.2.2 })

/-- The queue operation `advance()` as the spec words it: "equivalent to
`read()` but discards the item without handing it out". -/
def spec_advance {α L : Type} (thread : Kit_DecoderThread α L) :
    Int × Kit_DecoderThread α L :=
  let r := Kit_ThreadReadOutput thread
  (r.1, r.2.2)

/-- Number of items held by the output queue of a decoder thread. -/
def outputCount {α L : Type} (thread : Kit_DecoderThread α L) : Nat :=
  thread.output.items.length

/-! ## Video decoder pull (kitvideodecthread.c) -/

/-- The constant `VIDEO_SYNC_THRESHOLD`, in seconds. -/
def VIDEO_SYNC_THRESHOLD : ℚ := 1 / 100

/-- The constant `SDL_PIXELFORMAT_YV12`, a constant of the external SDL headers. -/
def SDL_PIXELFORMAT_YV12 : Nat := 0x32315659

/-- The constant `SDL_PIXELFORMAT_IYUV`, a constant of the external SDL headers. -/
def SDL_PIXELFORMAT_IYUV : Nat := 0x56555949

/-- The struct `Kit_VideoFormat` of `kitformats.h` (not among the sources):
the fields that `Kit_CreateVideoDecoderThread` fills in. -/
structure Kit_VideoFormat where
  is_enabled : Bool
  stream_idx : Int
  format : Nat
  width : Int
  height : Int
deriving DecidableEq, Repr

/-- The struct `Kit_VideoDecThread`; `tmp_frame` and `sws` are external
handles, of which the model keeps whether they are set (non-NULL). -/
structure Kit_VideoDecThread where
  format : Kit_VideoFormat
  tmp_frame : Bool := true
  sws : Bool := true
deriving DecidableEq, Repr

/-- The struct `Kit_VideoPacket`: a PTS in seconds and a handle of the
converted `AVFrame`. -/
structure Kit_VideoPacket where
  pts : ℚ
  frame : Nat
deriving DecidableEq, Repr

/-- A video decoder thread. -/
abbrev VideoThread : Type := Kit_DecoderThread Kit_VideoPacket Kit_VideoDecThread

/-- The host call that `Kit_GetVideoDecoderData` makes on the texture. -/
inductive TextureUpdate where
  /-- A call of `SDL_UpdateYUVTexture` with the planes of the frame. -/
  | yuv (frame : Nat)
  /-- A call of `SDL_UpdateTexture` with plane 0 of the frame. -/
  | plain (frame : Nat)
deriving DecidableEq, Repr

/-- What a call of `Kit_GetVideoDecoderData` did: its return value, the decoder
thread afterwards, the texture update made (if any) and the packets passed to
`_FreeVideoPacket`. -/
structure VideoPull where
  ret : Int
  thread : VideoThread
  texture : Option TextureUpdate
  freed : List Kit_VideoPacket
deriving DecidableEq, Repr

/-- The loop `while(packet != NULL)` in the lagging branch of
`Kit_GetVideoDecoderData`. `packet` is never NULL inside the loop, so the loop
ends only through one of its two `break`s. The result is the thread and the
value of `packet` after the loop; `none` when `fuel` iterations did not
finish it. -/
def videoSkipLoop (cur_video_ts : ℚ) :
    Nat → VideoThread → Kit_VideoPacket → Option (VideoThread × Kit_VideoPacket)
  | 0, _, _ => none
  | fuel + 1, thread, packet =>
    let thread1 := (Kit_ThreadAdvanceOutput thread).2
    match Kit_ThreadPeekOutput thread1 with
    | some n_packet =>
      if n_packet.pts > cur_video_ts - VIDEO_SYNC_THRESHOLD then
        some (thread1, n_packet)
      else
        videoSkipLoop cur_video_ts fuel thread1 n_packet
    | none => some (thread1, packet)

/-- The tail of `Kit_GetVideoDecoderData` after the sync decision: advance the
output queue, update the texture from `packet->frame`, free `packet`, return 0. -/
def videoDeliver (thread : VideoThread) (packet : Kit_VideoPacket) : VideoPull :=
  let thread1 := (Kit_ThreadAdvanceOutput thread).2
  let fmt := thread1.local.format.format
  let update :=
    if fmt = SDL_PIXELFORMAT_YV12 ∨ fmt = SDL_PIXELFORMAT_IYUV then
      TextureUpdate.yuv packet.frame
    else
      TextureUpdate.plain packet.frame
  { ret := 0, thread := thread1, texture := some update, freed := [packet] }

/-- The function `Kit_GetVideoDecoderData(thread, clock_sync, texture)` for a non-NULL
thread and texture, with `now` the reading of `Kit_GetSystemTime()`. -/
def Kit_GetVideoDecoderData (fuel : Nat) (thread : VideoThread) (clock_sync now : ℚ) :
    Outcome VideoPull :=
  match Kit_ThreadPeekOutput thread with
  | none => .done { ret := 0, thread := thread, texture := none, freed := [] }
  | some packet =>
    let cur_video_ts := now - clock_sync
    if packet.pts > cur_video_ts + VIDEO_SYNC_THRESHOLD then
      .done { ret := 0, thread := thread, texture := none, freed := [] }
    else if packet.pts < cur_video_ts - VIDEO_SYNC_THRESHOLD then
      match videoSkipLoop cur_video_ts fuel thread packet with
      | none => .out_of_fuel
      | some (thread1, packet1) => .done (videoDeliver thread1 packet1)
    else
      .done (videoDeliver thread packet)

/-! ## Audio decoder pull (kitaudiodecthread.c) -/

/-- The constant `AUDIO_SYNC_THRESHOLD`, in seconds. -/
def AUDIO_SYNC_THRESHOLD : ℚ := 5 / 100

/-- The struct `Kit_AudioFormat` of `kitformats.h` (not among the sources):
the fields that `Kit_CreateAudioDecoderThread` fills in. -/
structure Kit_AudioFormat where
  is_enabled : Bool
  stream_idx : Int
  format : Nat
  is_signed : Bool
  bytes : Int
  samplerate : Int
  channels : Int
deriving DecidableEq, Repr

/-- The struct `Kit_AudioDecThread`; `tmp_frame` and `swr` are external
handles, of which the model keeps whether they are set (non-NULL). -/
structure Kit_AudioDecThread where
  format : Kit_AudioFormat
  tmp_frame : Bool := true
  swr : Bool := true
deriving DecidableEq, Repr

/-- Modelled from the spec: `Kit_RingBuffer` (`kitringbuffer.c` is not among the
sources), "a ring buffer of already-converted sample bytes"; `data` lists the
bytes still to be read, oldest first. -/
structure Kit_RingBuffer where
  data : List Nat
deriving DecidableEq, Repr

/-- Modelled from the spec: `Kit_ReadRingBuffer(rb, data, len)` copies up to
`len` bytes out of the ring ("copy up to `len` bytes from the selected packet's
ring buffer") and returns how many it copied. The result is that count, the
bytes copied and the ring afterwards. -/
def Kit_ReadRingBuffer (rb : Kit_RingBuffer) (len : Int) : Int × List Nat × Kit_RingBuffer :=
  let n := min len.toNat rb.data.length
  ((n : Int), rb.data.take n, { data := rb.data.drop n })

/-- Modelled from the spec: `Kit_GetRingBufferLength(rb)`, the number of bytes
left in the ring. -/
def Kit_GetRingBufferLength (rb : Kit_RingBuffer) : Int :=
  (rb.data.length : Int)

/-- The struct `Kit_AudioPacket`. -/
structure Kit_AudioPacket where
  pts : ℚ
  original_size : Nat
  rb : Kit_RingBuffer
deriving DecidableEq, Repr

/-- An audio decoder thread. -/
abbrev AudioThread : Type := Kit_DecoderThread Kit_AudioPacket Kit_AudioDecThread

/-- What `Kit_GetAudioDecoderData` stored in the caller's buffer. -/
inductive AudioWrite where
  /-- Nothing was written. -/
  | nothing
  /-- A call of `av_samples_set_silence` for `samples` samples of `channels` channels in
  the host format `format`. -/
  | silence (samples : Int) (channels : Int) (format : Nat)
  /-- Bytes copied out of a packet's ring buffer. -/
  | data (bytes : List Nat)
deriving DecidableEq, Repr

/-- What a call of `Kit_GetAudioDecoderData` did: its return value, the decoder
thread afterwards, what it wrote to `buffer` and the packets passed to
`_FreeAudioPacket`. -/
structure AudioPull where
  ret : Int
  thread : AudioThread
  written : AudioWrite
  freed : List Kit_AudioPacket
deriving DecidableEq, Repr

/-- Truncation toward zero of a rational number, the mathematical `trunc`. -/
def truncToInt (x : ℚ) : Int :=
  Int.tdiv x.num (x.den : Int)

/-- The constant `INT_MIN` of a 32 bit `int`. -/
def INT_MIN : Int := -2147483648

/-- The constant `INT_MAX` of a 32 bit `int`. -/
def INT_MAX : Int := 2147483647

/-- The 32 bit `int` that holds the low 32 bits of `x`: what a product of two
`int` values is on the machine when it leaves the `int` range. -/
def wrapInt32 (x : Int) : Int :=
  (x + 2147483648) % 4294967296 - 2147483648

/-- The conversion `double → int` of x86-64 applied to a value `x` that the
`double` holds exactly: truncation toward zero when the result fits an `int`.
For a result outside the `int` range C defines nothing; the conversion
instruction then delivers `INT_MIN`. -/
def doubleToInt (x : ℚ) : Int :=
  if INT_MIN ≤ truncToInt x ∧ truncToInt x ≤ INT_MAX then truncToInt x else INT_MIN

/-- The loop `while(1)` in the lagging branch of `Kit_GetAudioDecoderData`.
The result is the thread and the value of `packet` after the loop; `none`
when `fuel` iterations did not finish it. -/
def audioSkipLoop (cur_audio_ts : ℚ) :
    Nat → AudioThread → Kit_AudioPacket → Option (AudioThread × Kit_AudioPacket)
  | 0, _, _ => none
  | fuel + 1, thread, packet =>
    let thread1 := (Kit_ThreadAdvanceOutput thread).2
    match Kit_ThreadPeekOutput thread1 with
    | some n_packet =>
      if n_packet.pts > cur_audio_ts - AUDIO_SYNC_THRESHOLD then
        some (thread1, n_packet)
      else
        audioSkipLoop cur_audio_ts fuel thread1 n_packet
    | none => some (thread1, packet)

/-- A store through the local `packet` pointer: the pointer aliases the head
item of the output queue, so the head item becomes `packet`. On an empty queue
the pointer is stale and the queue holds nothing to change. -/
def storeHead (thread : AudioThread) (packet : Kit_AudioPacket) : AudioThread :=
  match thread.output.items with
  | [] => thread
  | _ :: rest => { thread with output := { thread.output with items := packet :: rest } }

/-- The tail of `Kit_GetAudioDecoderData` after the sync decision: copy up
to `length` bytes out of `packet->rb`; if the ring is then empty read the head
item of the output queue into `packet` and free it, otherwise move
`packet->pts` forward by `ret / bps`. -/
def audioCopy (thread : AudioThread) (packet : Kit_AudioPacket) (bps : ℚ) (length : Int) :
    Outcome AudioPull :=
  let rd := if length > 0 then Kit_ReadRingBuffer packet.rb length else (0, [], packet.rb)
  let ret := rd.1
  let written := if length > 0 then AudioWrite.data rd.2.1 else AudioWrite.nothing
  let packet1 := { packet with rb := rd.2.2 }
  let thread1 := storeHead thread packet1
  if Kit_GetRingBufferLength packet1.rb = 0 then
    let r := Kit_ThreadReadOutput thread1
    match r.2.1 with
    | none => .crash
    | some p => .done { ret := ret, thread := r.2.2, written := written, freed := [p] }
  else
    let adjust := (ret : ℚ) / bps
    let packet2 := { packet1 with pts := packet1.pts + adjust }
    .done { ret := ret, thread := storeHead thread1 packet2, written := written, freed := [] }

/-- The function `Kit_GetAudioDecoderData(thread, clock_sync, buffer, length, cur_buf_len)`
for a non-NULL thread and buffer, with `now` the reading of
`Kit_GetSystemTime()`. The parameter `toInt` is the conversion of the line
`int diff_samples = fabs(diff) * athread->format.samplerate`: it is given the
exact product and answers with the `int` that the machine stores. -/
def Kit_GetAudioDecoderData (toInt : ℚ → Int) (fuel : Nat) (thread : AudioThread)
    (clock_sync now : ℚ) (length cur_buf_len : Int) : Outcome AudioPull :=
  match Kit_ThreadPeekOutput thread with
  | none => .done { ret := 0, thread := thread, written := .nothing, freed := [] }
  | some packet =>
    let format := thread.local.format
    let bytes_per_sample := format.bytes * format.channels
    let bps : ℚ := ((bytes_per_sample * format.samplerate : Int) : ℚ)
    if bps = 0 then .non_finite
    else
      let cur_audio_ts := now - clock_sync + (cur_buf_len : ℚ) / bps
      let diff := cur_audio_ts - packet.pts
      let diff_samples := toInt (|diff| * (format.samplerate : ℚ))
      if packet.pts > cur_audio_ts + AUDIO_SYNC_THRESHOLD then
        if bytes_per_sample = 0 then .crash
        else
          let max_diff_samples := Int.tdiv length bytes_per_sample
          let max_samples := if max_diff_samples < diff_samples then max_diff_samples else diff_samples
          let diff_bytes := wrapInt32 (max_samples * bytes_per_sample)
          .done { ret := diff_bytes, thread := thread,
                  written := .silence max_samples format.channels format.format, freed := [] }
      else if packet.pts < cur_audio_ts - AUDIO_SYNC_THRESHOLD then
        match audioSkipLoop cur_audio_ts fuel thread packet with
        | none => .out_of_fuel
        | some (thread1, packet1) => audioCopy thread1 packet1 bps length
      else
        audioCopy thread packet bps length


/-! ## Player: clock and pull API (kitplayer.c) -/

/-- The struct `Kit_SubtitlePacket` of `kitsubdecthread.c`; `rect`, `surface`
and `texture` are external handles. -/
structure Kit_SubtitlePacket where
  pts_start : ℚ
  pts_end : ℚ
  surface : Nat
deriving DecidableEq, Repr

/-- A subtitle decoder thread; its `local` blob holds external handles only. -/
abbrev SubtitleThread : Type := Kit_DecoderThread Kit_SubtitlePacket Unit

/-- The enum `Kit_DemuxThreadStatus` of `kitdemuxthread.c`. -/
inductive Kit_DemuxThreadStatus where
  | KIT_DEMUXTHREAD_CLOSED
  | KIT_DEMUXTHREAD_RUNNING
  | KIT_DEMUXTHREAD_CLOSING
deriving DecidableEq, Repr

/-- The struct `Kit_DemuxThread` of `kitdemuxthread.h`: the source, the state
atom and the three non-owning decoder thread pointers (`none` is NULL; a
pointer is modelled by the thread it points to). -/
structure Kit_DemuxThread where
  src : Kit_Source
  state : Kit_DemuxThreadStatus
  video_thread : Option VideoThread
  audio_thread : Option AudioThread
  subtitle_thread : Option SubtitleThread
deriving DecidableEq, Repr

/-- Modelled from the spec: the struct `Kit_Player` is declared in
`kitplayer.h`, which is not among the sources. The fields are those that
`kitplayer.c` uses: the state, the presentation clock (`clock_sync`,
`pause_start`), the source, the slots `dec_threads[THREAD_AUDIO]`,
`dec_threads[THREAD_VIDEO]`, `dec_threads[THREAD_SUBTITLE]` and the slot
`demux_thread` (`none` is NULL). -/
structure Kit_Player where
  state : Kit_PlayerState
  clock_sync : ℚ
  pause_start : ℚ
  src : Kit_Source
  audio_thread : Option AudioThread
  video_thread : Option VideoThread
  subtitle_thread : Option SubtitleThread
  demux_thread : Option Kit_DemuxThread := none
deriving DecidableEq, Repr

/-- The function `Kit_PlayerPlay(player)`, with `now` the reading of `Kit_GetSystemTime()`. -/
def Kit_PlayerPlay (player : Kit_Player) (now : ℚ) : Kit_Player :=
  if player.state = .KIT_PLAYING then player
  else
    let p1 := if player.state = .KIT_STOPPED then { player with clock_sync := now } else player
    let p2 :=
      if p1.state = .KIT_PAUSED then
        { p1 with clock_sync := p1.clock_sync + (now - p1.pause_start) }
      else p1
    { p2 with state := .KIT_PLAYING }

/-- The function `Kit_PlayerStop(player)`. -/
def Kit_PlayerStop (player : Kit_Player) : Kit_Player :=
  if player.state = .KIT_STOPPED then player
  else { player with state := .KIT_STOPPED }

/-- The function `Kit_PlayerPause(player)`, with `now` the reading of `Kit_GetSystemTime()`. -/
def Kit_PlayerPause (player : Kit_Player) (now : ℚ) : Kit_Player :=
  if player.state ≠ .KIT_PLAYING then player
  else { player with pause_start := now, state := .KIT_PAUSED }

/-- Media time of a player at wall time `now`: `now − clock_sync`. -/
def mediaTime (player : Kit_Player) (now : ℚ) : ℚ :=
  now - player.clock_sync

/-- A control call made by the host, for sequences of calls. -/
inductive PlayerCall where
  | play
  | pause
deriving DecidableEq, Repr

/-- One control call at wall-clock reading `now`. -/
def applyCall (player : Kit_Player) (call : PlayerCall × ℚ) : Kit_Player :=
  match call.1 with
  | .play => Kit_PlayerPlay player call.2
  | .pause => Kit_PlayerPause player call.2

/-- A sequence of control calls, first call first. -/
def runCalls (player : Kit_Player) (calls : List (PlayerCall × ℚ)) : Kit_Player :=
  calls.foldl applyCall player

/-- The clock invariant of a run without stop: the player is playing, or it is
paused and its pause_start is not later than `bound`. -/
def clockInv (bound : ℚ) (player : Kit_Player) : Prop :=
  player.state = .KIT_PLAYING ∨ (player.state = .KIT_PAUSED ∧ player.pause_start ≤ bound)

/-- What a pull call on the player did: the return value, the player
afterwards, and the effects of the decoder-level call (`none` when the decoder
level was not reached). -/
structure PlayerPull (ε : Type) where
  ret : Int
  player : Kit_Player
  effects : Option ε
deriving DecidableEq, Repr

/-- The function `Kit_GetVideoData(player, texture)` for non-NULL arguments. -/
def Kit_GetVideoData (fuel : Nat) (player : Kit_Player) (now : ℚ) :
    Outcome (PlayerPull VideoPull) :=
  if player.src.vstream_idx = -1 then .done { ret := 0, player := player, effects := none }
  else if player.state = .KIT_PAUSED then .done { ret := 0, player := player, effects := none }
  else if player.state = .KIT_STOPPED then .done { ret := 0, player := player, effects := none }
  else
    match player.video_thread with
    | none => .crash
    | some thread =>
      match Kit_GetVideoDecoderData fuel thread player.clock_sync now with
      | .done r =>
        .done { ret := r.ret, player := { player with video_thread := some r.thread },
                effects := some r }
      | .crash => .crash
      | .non_finite => .non_finite
      | .out_of_fuel => .out_of_fuel

/-- The function `Kit_GetSubtitleData(player, renderer)` for non-NULL arguments; the body
after the state checks is commented out in the source. -/
def Kit_GetSubtitleData (player : Kit_Player) : PlayerPull Unit :=
  if player.src.sstream_idx = -1 then { ret := 0, player := player, effects := none }
  else if player.state = .KIT_PAUSED then { ret := 0, player := player, effects := none }
  else if player.state = .KIT_STOPPED then { ret := 0, player := player, effects := none }
  else { ret := 0, player := player, effects := none }

/-- The function `Kit_GetAudioData(player, buffer, length, cur_buf_len)` for non-NULL
arguments. -/
def Kit_GetAudioData (toInt : ℚ → Int) (fuel : Nat) (player : Kit_Player) (now : ℚ)
    (length cur_buf_len : Int) : Outcome (PlayerPull AudioPull) :=
  if player.src.astream_idx = -1 then .done { ret := 0, player := player, effects := none }
  else if length = 0 then .done { ret := 0, player := player, effects := none }
  else if player.state = .KIT_PAUSED then .done { ret := 0, player := player, effects := none }
  else if player.state = .KIT_STOPPED then .done { ret := 0, player := player, effects := none }
  else
    match player.audio_thread with
    | none => .crash
    | some thread =>
      match Kit_GetAudioDecoderData toInt fuel thread player.clock_sync now length cur_buf_len with
      | .done r =>
        .done { ret := r.ret, player := { player with audio_thread := some r.thread },
                effects := some r }
      | .crash => .crash
      | .non_finite => .non_finite
      | .out_of_fuel => .out_of_fuel

/-! ## Format tables (kitavutils.c) -/

/-- The external enum `AVPixelFormat`: the values that `kitavutils.c` names, and
`other` for every value it does not name. -/
inductive AVPixelFormat where
  | AV_PIX_FMT_NONE
  | AV_PIX_FMT_YUV420P
  | AV_PIX_FMT_YUYV422
  | AV_PIX_FMT_UYVY422
  | AV_PIX_FMT_YUV420P9
  | AV_PIX_FMT_YUV420P10
  | AV_PIX_FMT_YUV420P12
  | AV_PIX_FMT_YUV420P14
  | AV_PIX_FMT_YUV420P16
  | AV_PIX_FMT_BGRA
  | AV_PIX_FMT_RGBA
  | other (id : Nat)
deriving DecidableEq, Repr

/-- The external enum `AVSampleFormat`: the values that `kitavutils.c` names,
and `other` for every value it does not name (float, double, planar). -/
inductive AVSampleFormat where
  | AV_SAMPLE_FMT_NONE
  | AV_SAMPLE_FMT_U8
  | AV_SAMPLE_FMT_S16
  | AV_SAMPLE_FMT_S32
  | other (id : Nat)
deriving DecidableEq, Repr

/-- The constant `SDL_PIXELFORMAT_YUY2` of the external SDL headers. -/
def SDL_PIXELFORMAT_YUY2 : Nat := 0x32595559

/-- The constant `SDL_PIXELFORMAT_UYVY` of the external SDL headers. -/
def SDL_PIXELFORMAT_UYVY : Nat := 0x59565955

/-- The constant `SDL_PIXELFORMAT_ARGB8888` of the external SDL headers. -/
def SDL_PIXELFORMAT_ARGB8888 : Nat := 0x16362004

/-- The constant `SDL_PIXELFORMAT_ABGR8888` of the external SDL headers. -/
def SDL_PIXELFORMAT_ABGR8888 : Nat := 0x16762004

/-- The constant `AUDIO_U8` of the external SDL headers. -/
def AUDIO_U8 : Nat := 0x0008

/-- The constant `AUDIO_S16SYS` of the external SDL headers, on a little-endian
host (`AUDIO_S16LSB`). -/
def AUDIO_S16SYS : Nat := 0x8010

/-- The constant `AUDIO_S32SYS` of the external SDL headers, on a little-endian
host (`AUDIO_S32LSB`). -/
def AUDIO_S32SYS : Nat := 0x8020

/-- The macro `SDL_AUDIO_BITSIZE` of the external SDL headers: the sample width
in bits, the low byte of the format tag. -/
def SDL_AUDIO_BITSIZE (format : Nat) : Nat :=
  format % 256

/-- The function `Kit_FindPixelFormat(fmt, out_fmt)`; the result is `*out_fmt`. -/
def Kit_FindPixelFormat (fmt : AVPixelFormat) : Nat :=
  match fmt with
  | .AV_PIX_FMT_YUV420P9 => SDL_PIXELFORMAT_YV12
  | .AV_PIX_FMT_YUV420P10 => SDL_PIXELFORMAT_YV12
  | .AV_PIX_FMT_YUV420P12 => SDL_PIXELFORMAT_YV12
  | .AV_PIX_FMT_YUV420P14 => SDL_PIXELFORMAT_YV12
  | .AV_PIX_FMT_YUV420P16 => SDL_PIXELFORMAT_YV12
  | .AV_PIX_FMT_YUV420P => SDL_PIXELFORMAT_YV12
  | .AV_PIX_FMT_YUYV422 => SDL_PIXELFORMAT_YUY2
  | .AV_PIX_FMT_UYVY422 => SDL_PIXELFORMAT_UYVY
  | _ => SDL_PIXELFORMAT_ABGR8888

/-- The three outputs of `Kit_FindAudioFormat`. -/
structure AudioFormatChoice where
  bytes : Int
  is_signed : Bool
  format : Nat
deriving DecidableEq, Repr

/-- The function `Kit_FindAudioFormat(fmt, bytes, is_signed, format)`; the
result holds `*bytes`, `*is_signed` and `*format`. -/
def Kit_FindAudioFormat (fmt : AVSampleFormat) : AudioFormatChoice :=
  match fmt with
  | .AV_SAMPLE_FMT_U8 => { bytes := 1, is_signed := false, format := AUDIO_U8 }
  | .AV_SAMPLE_FMT_S16 => { bytes := 2, is_signed := true, format := AUDIO_S16SYS }
  | .AV_SAMPLE_FMT_S32 => { bytes := 4, is_signed := true, format := AUDIO_S32SYS }
  | _ => { bytes := 2, is_signed := true, format := AUDIO_S16SYS }

/-- The function `Kit_FindAVPixelFormat(fmt)`; the `case` labels of the
`switch` are distinct constants, so the chain of tests reads them in order. -/
def Kit_FindAVPixelFormat (fmt : Nat) : AVPixelFormat :=
  if fmt = SDL_PIXELFORMAT_IYUV then .AV_PIX_FMT_YUV420P
  else if fmt = SDL_PIXELFORMAT_YV12 then .AV_PIX_FMT_YUV420P
  else if fmt = SDL_PIXELFORMAT_YUY2 then .AV_PIX_FMT_YUYV422
  else if fmt = SDL_PIXELFORMAT_UYVY then .AV_PIX_FMT_UYVY422
  else if fmt = SDL_PIXELFORMAT_ARGB8888 then .AV_PIX_FMT_BGRA
  else if fmt = SDL_PIXELFORMAT_ABGR8888 then .AV_PIX_FMT_RGBA
  else .AV_PIX_FMT_NONE

/-- The function `Kit_FindAVSampleFormat(format)`. -/
def Kit_FindAVSampleFormat (format : Int) : AVSampleFormat :=
  if format = (AUDIO_U8 : Int) then .AV_SAMPLE_FMT_U8
  else if format = (AUDIO_S16SYS : Int) then .AV_SAMPLE_FMT_S16
  else if format = (AUDIO_S32SYS : Int) then .AV_SAMPLE_FMT_S32
  else .AV_SAMPLE_FMT_NONE

/-! ## Construction and teardown (kitdecthread.c, kitvideodecthread.c,
kitaudiodecthread.c, kitdemuxthread.c, kitplayer.c)

The functions are modelled for arguments that pass the assertions at their
head. The answers of the allocator, the codec library and SDL are inputs
(`CreateEnv`, `PlayerEnv`); `SDL_WaitThread` is taken to return. -/

/-- A kind of resource that construction acquires and teardown releases. -/
inductive Resource where
  /-- The struct `Kit_Player` (`calloc` / `free`). -/
  | player_struct
  /-- The struct `Kit_DemuxThread` (`calloc` / `free`). -/
  | demux_struct
  /-- The struct `Kit_DecoderThread` (`calloc` / `free`). -/
  | worker_struct
  /-- The struct `Kit_VideoDecThread` or `Kit_AudioDecThread` (`calloc` / `free`). -/
  | local_struct
  /-- A codec context (`avcodec_alloc_context3` / `avcodec_free_context`). -/
  | codec_context
  /-- A mutex (`SDL_CreateMutex` / `SDL_DestroyMutex`). -/
  | lock
  /-- A condition variable (`SDL_CreateCond` / `SDL_DestroyCond`). -/
  | condition
  /-- A packet queue (`Kit_CreateBuffer` / `Kit_DestroyBuffer`). -/
  | buffer
  /-- A running thread (`SDL_CreateThread` / `SDL_WaitThread`). -/
  | thread
  /-- A temporary frame (`av_frame_alloc` / `av_frame_free`). -/
  | frame
  /-- A converter context (`sws_getContext`, `swr_alloc_set_opts` and their free calls). -/
  | converter
deriving DecidableEq, Repr

/-- The process state around the player: the resources currently held, one
entry per live object, and the last error string. -/
structure World where
  live : List Resource
  error : Option String
deriving DecidableEq, Repr

/-- One more live object of kind `r`. -/
def World.acquire (w : World) (r : Resource) : World :=
  { w with live := r :: w.live }

/-- A creation call that answered `ok`: on success one more live object. -/
def World.acquireIf (w : World) (ok : Bool) (r : Resource) : World :=
  if ok then w.acquire r else w

/-- One live object of kind `r` is destroyed. -/
def World.release (w : World) (r : Resource) : World :=
  { w with live := w.live.erase r }

/-- A destroy call on a pointer that is set when `set` holds and NULL
otherwise; the destroy calls used here do nothing on NULL. -/
def World.releaseIf (w : World) (set : Bool) (r : Resource) : World :=
  if set then w.release r else w

/-- Modelled from the spec: `Kit_SetError` (`kiterror.c` is not among the
sources), "`set_error(fmt, …)` writes a process-local last-error string";
`msg` is the formatted message. -/
def Kit_SetError (w : World) (msg : String) : World :=
  { w with error := some msg }

/-- The fields of the external `AVCodecContext` that the core reads. -/
structure AVCodecContext where
  width : Int
  height : Int
  pix_fmt : AVPixelFormat
  sample_rate : Int
  channels : Int
  sample_fmt : AVSampleFormat
deriving DecidableEq, Repr

/-- The answers of the allocator, the codec library and SDL while one decoder
thread is created; `true` is success. `codec_ctx` holds the parameters of the
opened codec context, `sdl_error` the text of `SDL_GetError()`. -/
structure CreateEnv where
  local_ok : Bool := true
  worker_ok : Bool := true
  codec_found : Bool := true
  copy_ok : Bool := true
  open_ok : Bool := true
  lock_in_ok : Bool := true
  lock_out_ok : Bool := true
  cond_in_ok : Bool := true
  cond_out_ok : Bool := true
  buffer_in_ok : Bool := true
  buffer_out_ok : Bool := true
  thread_ok : Bool := true
  frame_ok : Bool := true
  converter_ok : Bool := true
  codec_ctx : AVCodecContext
  sdl_error : String := ""
deriving DecidableEq, Repr

/-- The label `failure_1` of `Kit_CreateDecoderThread` with the code after it:
free the codec context, then free the worker struct. -/
def failure_1 (w : World) : World :=
  (w.release .codec_context).release .worker_struct

/-- The label `failure_3` of `Kit_CreateDecoderThread` with the code after it:
destroy the two mutexes, conditions and buffers (each call does nothing on a
NULL pointer), close the codec, then continue at `failure_1`. The flags tell
which of the six pointers are set. -/
def failure_3 (w : World) (lock_in lock_out cond_in cond_out buffer_in buffer_out : Bool) :
    World :=
  let w0 := ((w.releaseIf lock_in .lock).releaseIf cond_in .condition).releaseIf buffer_in .buffer
  let w1 := ((w0.releaseIf lock_out .lock).releaseIf cond_out .condition).releaseIf
    buffer_out .buffer
  failure_1 w1

/-- The function `Kit_CreateDecoderThread(src, stream_index, …, inbuffer_size,
outbuffer_size, …, local)`. The result is the returned pointer (`none` is NULL)
and the world afterwards. -/
def Kit_CreateDecoderThread {α L : Type} (env : CreateEnv) (w : World) (src : Kit_Source)
    (stream_index : Int) (inbuffer_size outbuffer_size : Nat) («local» : L) :
    Option (Kit_DecoderThread α L) × World :=
  let n := toString stream_index
  if stream_index ≥ (src.format_ctx.nb_streams : Int) then
    (none, Kit_SetError w ("Invalid stream index #" ++ n))
  else if env.worker_ok = false then
    (none, Kit_SetError w ("Unable to allocate a new decoder thread for stream #" ++ n))
  else
    let w1 := w.acquire .worker_struct
    if env.codec_found = false then
      (none, (Kit_SetError w1 ("No suitable decoder found for stream #" ++ n)).release
        .worker_struct)
    else
      let w2 := w1.acquire .codec_context
      if env.copy_ok = false then
        (none, (Kit_SetError w2 ("Unable to copy codec context for stream #" ++ n)).release
          .worker_struct)
      else if env.open_ok = false then
        (none, failure_1 (Kit_SetError w2 ("Unable to open codec context for stream #" ++ n)))
      else
        let w3 := (w2.acquireIf env.lock_in_ok .lock).acquireIf env.lock_out_ok .lock
        if env.lock_in_ok = false ∨ env.lock_out_ok = false then
          (none, failure_3 (Kit_SetError w3 ("Unable to allocate mutexes for stream #" ++ n))
            env.lock_in_ok env.lock_out_ok false false false false)
        else
          let w4 := (w3.acquireIf env.cond_in_ok .condition).acquireIf env.cond_out_ok
            .condition
          if env.cond_in_ok = false ∨ env.cond_out_ok = false then
            (none, failure_3
              (Kit_SetError w4 ("Unable to allocate conditions for stream #" ++ n))
              true true env.cond_in_ok env.cond_out_ok false false)
          else
            let w5 := (w4.acquireIf env.buffer_in_ok .buffer).acquireIf env.buffer_out_ok
              .buffer
            if env.buffer_in_ok = false ∨ env.buffer_out_ok = false then
              (none, failure_3
                (Kit_SetError w5 ("Unable to allocate buffers for stream #" ++ n))
                true true true true env.buffer_in_ok env.buffer_out_ok)
            else if env.thread_ok = false then
              (none, failure_3
                (Kit_SetError w5 ("Unable to create a decoder thread for stream #" ++ n
                  ++ ": " ++ env.sdl_error))
                true true true true true true)
            else
              (some { state := .KIT_DECTHREAD_RUNNING,
                      input := { size := inbuffer_size, items := [] },
                      output := { size := outbuffer_size, items := [] },
                      stream_index := stream_index,
                      «local» := «local» },
               w5.acquire .thread)

/-- The function `Kit_FreeDecoderThread(thread_ptr)` for a non-NULL
`thread_ptr`; `thread` is `*thread_ptr` and `free_cb` the callback stored in
the thread. The result is `*thread_ptr` and the world afterwards. This is the
release of the resources; the store of `KIT_DECTHREAD_CLOSING` and the wait for
the worker, which come first, are `closeAndJoin`. -/
def Kit_FreeDecoderThread {α L : Type} (free_cb : L → World → World)
    (thread : Option (Kit_DecoderThread α L)) (w : World) :
    Option (Kit_DecoderThread α L) × World :=
  match thread with
  | none => (none, w)
  | some t =>
    let w1 := w.release .thread
    let w2 := free_cb t.local w1
    let w3 := ((w2.release .lock).release .condition).release .buffer
    let w4 := ((w3.release .lock).release .condition).release .buffer
    (none, (w4.release .codec_context).release .worker_struct)

/-- The function `_FreeVideoDecoderThread(ptr)` for a non-NULL `ptr`. -/
def _FreeVideoDecoderThread (vthread : Kit_VideoDecThread) (w : World) : World :=
  ((w.releaseIf vthread.tmp_frame .frame).releaseIf vthread.sws .converter).release
    .local_struct

/-- The function `_FreeAudioDecoderThread(ptr)` for a non-NULL `ptr`. -/
def _FreeAudioDecoderThread (athread : Kit_AudioDecThread) (w : World) : World :=
  ((w.releaseIf athread.tmp_frame .frame).releaseIf athread.swr .converter).release
    .local_struct

/-- The function `Kit_CreateVideoDecoderThread(src, stream_index)`. -/
def Kit_CreateVideoDecoderThread (env : CreateEnv) (w : World) (src : Kit_Source)
    (stream_index : Int) : Option VideoThread × World :=
  if env.local_ok = false then
    (none, Kit_SetError w "Unable to allocate video decoder thread")
  else
    let vdec0 : Kit_VideoDecThread :=
      { format := { is_enabled := false, stream_idx := 0, format := 0, width := 0, height := 0 },
        tmp_frame := false, sws := false }
    let w1 := w.acquire .local_struct
    match Kit_CreateDecoderThread env w1 src stream_index 2 2 vdec0 with
    | (none, w2) => (none, w2.release .local_struct)
    | (some thread, w2) =>
      if env.frame_ok = false then
        (Kit_FreeDecoderThread _FreeVideoDecoderThread (some thread)
          (Kit_SetError w2 "Unable to initialize temporary video frame"))
      else
        let w3 := w2.acquire .frame
        let vdec1 : Kit_VideoDecThread :=
          { format := { is_enabled := true, stream_idx := stream_index,
                        format := Kit_FindPixelFormat env.codec_ctx.pix_fmt,
                        width := env.codec_ctx.width, height := env.codec_ctx.height },
            tmp_frame := true, sws := false }
        if env.converter_ok = false then
          (Kit_FreeDecoderThread _FreeVideoDecoderThread (some { thread with «local» := vdec1 })
            (Kit_SetError w3 "Unable to initialize video converter context"))
        else
          (some { thread with «local» := { vdec1 with sws := true } }, w3.acquire .converter)

/-- The function `Kit_CreateAudioDecoderThread(src, stream_index)`. The
converter is allocated by `swr_alloc_set_opts` before `swr_init` is tried. -/
def Kit_CreateAudioDecoderThread (env : CreateEnv) (w : World) (src : Kit_Source)
    (stream_index : Int) : Option AudioThread × World :=
  if env.local_ok = false then
    (none, Kit_SetError w "Unable to allocate audio decoder thread")
  else
    let adec0 : Kit_AudioDecThread :=
      { format := { is_enabled := false, stream_idx := 0, format := 0, is_signed := false,
                    bytes := 0, samplerate := 0, channels := 0 },
        tmp_frame := false, swr := false }
    let w1 := w.acquire .local_struct
    match Kit_CreateDecoderThread env w1 src stream_index 3 64 adec0 with
    | (none, w2) => (none, w2.release .local_struct)
    | (some thread, w2) =>
      if env.frame_ok = false then
        (Kit_FreeDecoderThread _FreeAudioDecoderThread (some thread)
          (Kit_SetError w2 "Unable to initialize temporary audio frame"))
      else
        let w3 := w2.acquire .frame
        let choice := Kit_FindAudioFormat env.codec_ctx.sample_fmt
        let adec1 : Kit_AudioDecThread :=
          { format := { is_enabled := true, stream_idx := stream_index,
                        format := choice.format, is_signed := choice.is_signed,
                        bytes := choice.bytes, samplerate := env.codec_ctx.sample_rate,
                        channels := if env.codec_ctx.channels > 2 then 2
                                    else env.codec_ctx.channels },
            tmp_frame := true, swr := true }
        let w4 := w3.acquire .converter
        if env.converter_ok = false then
          (Kit_FreeDecoderThread _FreeAudioDecoderThread (some { thread with «local» := adec1 })
            (Kit_SetError w4 "Unable to initialize audio converter context"))
        else
          (some { thread with «local» := adec1 }, w4)

/-- The answers of the allocator and of SDL while a player is created, and the
answers for each of its two decoder threads. -/
structure PlayerEnv where
  player_ok : Bool := true
  audio : CreateEnv
  video : CreateEnv
  demux_ok : Bool := true
  demux_thread_ok : Bool := true
  sdl_error : String := ""
deriving DecidableEq, Repr

/-- The function `Kit_CreateDemuxThread(src, video_thread, audio_thread,
subtitle_thread)`; `demux_ok` answers the `calloc`, `thread_ok` the
`SDL_CreateThread`. -/
def Kit_CreateDemuxThread (demux_ok thread_ok : Bool) (sdl_error : String) (w : World)
    (src : Kit_Source) (video_thread : Option VideoThread) (audio_thread : Option AudioThread)
    (subtitle_thread : Option SubtitleThread) : Option Kit_DemuxThread × World :=
  if demux_ok = false then
    (none, Kit_SetError w "Unable to allocate demuxer thread")
  else
    let w1 := w.acquire .demux_struct
    if thread_ok = false then
      (none, (Kit_SetError w1 ("Unable to create a demuxer thread: " ++ sdl_error)).release
        .demux_struct)
    else
      (some { src := src, state := .KIT_DEMUXTHREAD_RUNNING, video_thread := video_thread,
              audio_thread := audio_thread, subtitle_thread := subtitle_thread },
       w1.acquire .thread)

/-- The function `Kit_FreeDemuxThread(thread_ptr)` for a non-NULL `thread_ptr`;
`thread` is `*thread_ptr`. The result is `*thread_ptr` and the world afterwards. -/
def Kit_FreeDemuxThread (thread : Option Kit_DemuxThread) (w : World) :
    Option Kit_DemuxThread × World :=
  match thread with
  | none => (none, w)
  | some _ => (none, (w.release .thread).release .demux_struct)

/-- The function `Kit_ClosePlayer(player)`; `none` is a NULL player. The free
callback of the subtitle slot releases its local struct. -/
def Kit_ClosePlayer (player : Option Kit_Player) (w : World) : World :=
  match player with
  | none => w
  | some p =>
    let w1 := (Kit_FreeDemuxThread p.demux_thread w).2
    let w2 := (Kit_FreeDecoderThread _FreeVideoDecoderThread p.video_thread w1).2
    let w3 := (Kit_FreeDecoderThread _FreeAudioDecoderThread p.audio_thread w2).2
    let w4 := (Kit_FreeDecoderThread (fun _ v => v.release .local_struct) p.subtitle_thread w3).2
    w4.release .player_struct

/-- The function `Kit_CreatePlayer(src)` for a non-NULL `src`. The player comes
zeroed out of `calloc`: state `KIT_STOPPED`, clock 0, all slots NULL. -/
def Kit_CreatePlayer (env : PlayerEnv) (w : World) (src : Kit_Source) :
    Option Kit_Player × World :=
  if env.player_ok = false then
    (none, Kit_SetError w "Unable to allocate player object")
  else
    let player0 : Kit_Player :=
      { state := .KIT_STOPPED, clock_sync := 0, pause_start := 0, src := src,
        audio_thread := none, video_thread := none, subtitle_thread := none,
        demux_thread := none }
    let w0 := w.acquire .player_struct
    let a : Option AudioThread × World :=
      if src.astream_idx > -1 then Kit_CreateAudioDecoderThread env.audio w0 src src.astream_idx
      else (none, w0)
    let player1 := { player0 with audio_thread := a.1 }
    if src.astream_idx > -1 ∧ a.1 = none then
      (none, Kit_ClosePlayer (some player1) a.2)
    else
      let v : Option VideoThread × World :=
        if src.vstream_idx > -1 then
          Kit_CreateVideoDecoderThread env.video a.2 src src.vstream_idx
        else (none, a.2)
      let player2 := { player1 with video_thread := v.1 }
      if src.vstream_idx > -1 ∧ v.1 = none then
        (none, Kit_ClosePlayer (some player2) v.2)
      else
        let player3 := { player2 with subtitle_thread := none }
        let d := Kit_CreateDemuxThread env.demux_ok env.demux_thread_ok env.sdl_error v.2 src
          player3.video_thread player3.audio_thread player3.subtitle_thread
        let player4 := { player3 with demux_thread := d.1 }
        if d.1 = none then
          (none, Kit_ClosePlayer (some player4) d.2)
        else
          (some player4, d.2)

/-! ## Queue writes, worker loops and packet handlers (kitdecthread.c,
kitdemuxthread.c, kitvideodecthread.c, kitaudiodecthread.c)

A writer that finds its queue full waits on the condition of the queue. The
wait is taken to return; `wake` tells what the queue holds at that moment
(other threads may have read from it or cleared it; the identity stands for a
wake-up that leaves the queue full). -/

/-- Modelled from the spec: the result of `Kit_GetBufferState` (`kitbuffer.c`
is not among the sources), `state() → {empty, partial, full}`. -/
inductive Kit_BufferState where
  | KIT_BUFFER_EMPTY
  | KIT_BUFFER_PARTIAL
  | KIT_BUFFER_FULL
deriving DecidableEq, Repr

/-- Modelled from the spec: `Kit_GetBufferState`, with the invariant
`0 ≤ count ≤ capacity`: empty at count 0, full at count = capacity. -/
def Kit_GetBufferState {α : Type} (buffer : Kit_Buffer α) : Kit_BufferState :=
  if buffer.items.length = 0 then .KIT_BUFFER_EMPTY
  else if buffer.items.length ≥ buffer.size then .KIT_BUFFER_FULL
  else .KIT_BUFFER_PARTIAL

/-- Modelled from the spec: `Kit_WriteBuffer`, the enqueue of `write(p)`,
"returns success/fail": with room the item goes to the tail and the result is
0, on a full queue nothing is stored and the result is 1. -/
def Kit_WriteBuffer {α : Type} (buffer : Kit_Buffer α) (p : α) : Int × Kit_Buffer α :=
  if buffer.items.length < buffer.size then
    (0, { buffer with items := buffer.items ++ [p] })
  else
    (1, buffer)

/-- Modelled from the spec: `Kit_ClearBuffer`, the queue operation `clear()`:
"drop all items using the free-function"; afterwards the count is 0. -/
def Kit_ClearBuffer {α : Type} (buffer : Kit_Buffer α) : Kit_Buffer α :=
  { buffer with items := [] }

/-- The function `_ThreadWrite(num, thread, packet)` acting on
`buffer = thread->buffers[num]`: on a full queue wait for the condition, then
call `Kit_WriteBuffer` on what the queue holds by then. The result is the
return value and the buffer after the call. -/
def _ThreadWrite {α : Type} (buffer : Kit_Buffer α) (packet : α)
    (wake : Kit_Buffer α → Kit_Buffer α) : Int × Kit_Buffer α :=
  if Kit_GetBufferState buffer = .KIT_BUFFER_FULL then
    Kit_WriteBuffer (wake buffer) packet
  else
    Kit_WriteBuffer buffer packet

/-- The function `Kit_ThreadWriteInput(thread, packet)`. -/
def Kit_ThreadWriteInput {α L : Type} (thread : Kit_DecoderThread α L) (packet : AVPacket)
    (wake : Kit_Buffer AVPacket → Kit_Buffer AVPacket) : Int × Kit_DecoderThread α L :=
  let r := _ThreadWrite thread.input packet wake
  (r.1, { thread with input := r.2 })

/-- The function `Kit_ThreadReadInput(thread, &packet)`. -/
def Kit_ThreadReadInput {α L : Type} (thread : Kit_DecoderThread α L) :
    Int × Option AVPacket × Kit_DecoderThread α L :=
  let r := _ThreadRead thread.input true
  (r.1, r.2.1, { thread with input := r.2.2 })

/-- The function `Kit_ThreadWriteOutput(thread, packet)`. -/
def Kit_ThreadWriteOutput {α L : Type} (thread : Kit_DecoderThread α L) (packet : α)
    (wake : Kit_Buffer α → Kit_Buffer α) : Int × Kit_DecoderThread α L :=
  let r := _ThreadWrite thread.output packet wake
  (r.1, { thread with output := r.2 })

/-- The constant `AV_TIME_BASE` of the external codec headers. -/
def AV_TIME_BASE : Int := 1000000

/-- The function `Kit_GetPlayerDuration(player)`: the `int64_t` duration is
divided by the `int` constant `AV_TIME_BASE` in integer arithmetic, and the
quotient is converted to `double` by the `return`. -/
def Kit_GetPlayerDuration (player : Kit_Player) : ℚ :=
  ((Int.tdiv player.src.format_ctx.duration AV_TIME_BASE : Int) : ℚ)

/-- A store to the state atom of a decoder thread by another thread (the
owner, in `Kit_FreeDecoderThread`, stores `KIT_DECTHREAD_CLOSING`); `none`
means that no other thread wrote. -/
def externalStore {α L : Type} (write : Option Kit_DecoderThreadStatus)
    (thread : Kit_DecoderThread α L) : Kit_DecoderThread α L :=
  match write with
  | none => thread
  | some s => { thread with state := s }

/-- What one pass through the body of the loop of `_DecoderThread` did: the
value of the first `SDL_AtomicGet`, whether the flush branch ran, the value of
the second `SDL_AtomicGet`, and the return value of the handler (`none` when
the handler was not called). -/
structure WorkerIteration where
  first_read : Kit_DecoderThreadStatus
  flushed : Bool
  state_read : Kit_DecoderThreadStatus
  handler_ret : Option Int
deriving DecidableEq, Repr

/-- One pass through the body of the loop of `_DecoderThread`. `ext1` is a
store by another thread before the first read of the state, `ext2` one between
the store of `KIT_DECTHREAD_RUNNING` (or the first read, when nothing is
flushed) and the second read. -/
def workerIteration {α L : Type}
    (handler_cb : Kit_DecoderThread α L → Int × Kit_DecoderThread α L)
    (ext1 ext2 : Option Kit_DecoderThreadStatus) (thread : Kit_DecoderThread α L) :
    WorkerIteration × Kit_DecoderThread α L :=
  let t1 := externalStore ext1 thread
  let first := t1.state
  let t2 :=
    if first = .KIT_DECTHREAD_FLUSHING then
      { t1 with input := Kit_ClearBuffer t1.input, output := Kit_ClearBuffer t1.output,
                state := .KIT_DECTHREAD_RUNNING }
    else t1
  let t3 := externalStore ext2 t2
  let second := t3.state
  if second ≠ .KIT_DECTHREAD_RUNNING then
    ({ first_read := first, flushed := decide (first = .KIT_DECTHREAD_FLUSHING),
       state_read := second, handler_ret := none }, t3)
  else
    let r := handler_cb t3
    ({ first_read := first, flushed := decide (first = .KIT_DECTHREAD_FLUSHING),
       state_read := second, handler_ret := some r.1 }, r.2)

/-- A run of `_DecoderThread`: the thread afterwards, the passes through the
loop body in order, and whether the function returned (`false`: the loop was
still running when the iteration budget was used up). -/
structure WorkerRun (α L : Type) where
  thread : Kit_DecoderThread α L
  trace : List WorkerIteration
  returned : Bool

/-- The function `_DecoderThread(ptr)`: the loop `while(ret == 0 && running)`.
`ext i` gives the stores by other threads during pass `i`; `fuel` bounds the
number of passes, `i` is the number of the next pass. -/
def _DecoderThread {α L : Type}
    (handler_cb : Kit_DecoderThread α L → Int × Kit_DecoderThread α L)
    (ext : Nat → Option Kit_DecoderThreadStatus × Option Kit_DecoderThreadStatus) :
    Nat → Nat → Kit_DecoderThread α L → WorkerRun α L
  | 0, _, thread => { thread := thread, trace := [], returned := false }
  | fuel + 1, i, thread =>
    let step := workerIteration handler_cb (ext i).1 (ext i).2 thread
    match step.1.handler_ret with
    | none => { thread := step.2, trace := [step.1], returned := true }
    | some ret =>
      if ret ≠ 0 then
        { thread := step.2, trace := [step.1], returned := true }
      else
        let run := _DecoderThread handler_cb ext fuel (i + 1) step.2
        { run with trace := step.1 :: run.trace }

/-- The lines `SDL_AtomicSet(&thread->state, KIT_DECTHREAD_CLOSING)` and
`SDL_WaitThread(thread->thread, NULL)` of `Kit_FreeDecoderThread`, seen from
the worker: the store lands when the worker is about to start pass `i` of its
loop, and the wait lasts until `_DecoderThread` has returned. The result is
the rest of the worker's run. No line after the wait stores to the state
atom; the lines that follow free the thread object. -/
def closeAndJoin {α L : Type}
    (handler_cb : Kit_DecoderThread α L → Int × Kit_DecoderThread α L)
    (ext : Nat → Option Kit_DecoderThreadStatus × Option Kit_DecoderThreadStatus)
    (fuel i : Nat) (thread : Kit_DecoderThread α L) : WorkerRun α L :=
  _DecoderThread handler_cb ext fuel i
    (externalStore (some .KIT_DECTHREAD_CLOSING) thread)

/-- No store by another thread, in any pass. -/
def noExternalStore : Nat → Option Kit_DecoderThreadStatus × Option Kit_DecoderThreadStatus :=
  fun _ => (none, none)

/-- The test `thread != NULL && packet->stream_index == thread->stream_index`
of `_DemuxThread`: the thread when it holds, `none` when it fails. -/
def attachedFor {α L : Type} (thread : Option (Kit_DecoderThread α L)) (packet : AVPacket) :
    Option (Kit_DecoderThread α L) :=
  match thread with
  | none => none
  | some t => if packet.stream_index = t.stream_index then some t else none

/-- What one pass through the loop body of `_DemuxThread` did: the demuxer
with its decoder threads afterwards, the value of `running`, the number of
`malloc(sizeof(AVPacket))` calls, the number of packets the demuxer freed, and
the return value of `Kit_ThreadWriteInput` (`none` when it was not called). -/
structure DemuxIteration where
  thread : Kit_DemuxThread
  running : Bool
  mallocs : Nat
  frees : Nat
  write_ret : Option Int
deriving DecidableEq, Repr

/-- One pass through the loop body of `_DemuxThread`. `read` is the packet
that `av_read_frame` stored (`none` when it returned a negative value), `wake`
what a full input queue holds when the wait on it returns. The body contains
no call that frees a packet. -/
def demuxIteration (read : Option AVPacket)
    (wake : Kit_Buffer AVPacket → Kit_Buffer AVPacket) (thread : Kit_DemuxThread) :
    DemuxIteration :=
  if thread.state ≠ .KIT_DEMUXTHREAD_RUNNING then
    { thread := thread, running := false, mallocs := 0, frees := 0, write_ret := none }
  else
    match read with
    | none =>
      { thread := thread, running := false, mallocs := 1, frees := 0, write_ret := none }
    | some packet =>
      match attachedFor thread.video_thread packet with
      | some v =>
        let r := Kit_ThreadWriteInput v packet wake
        { thread := { thread with video_thread := some r.2 }, running := true,
          mallocs := 1, frees := 0, write_ret := some r.1 }
      | none =>
        match attachedFor thread.audio_thread packet with
        | some a =>
          let r := Kit_ThreadWriteInput a packet wake
          { thread := { thread with audio_thread := some r.2 }, running := true,
            mallocs := 1, frees := 0, write_ret := some r.1 }
        | none =>
          match attachedFor thread.subtitle_thread packet with
          | some s =>
            let r := Kit_ThreadWriteInput s packet wake
            { thread := { thread with subtitle_thread := some r.2 }, running := true,
              mallocs := 1, frees := 0, write_ret := some r.1 }
          | none =>
            { thread := thread, running := true, mallocs := 1, frees := 0,
              write_ret := none }

/-- The number of packets held by the input queues of the decoder threads that
a demuxer points to. -/
def heldByInputs (thread : Kit_DemuxThread) : Nat :=
  (match thread.video_thread with | none => 0 | some v => v.input.items.length)
  + (match thread.audio_thread with | none => 0 | some a => a.input.items.length)
  + (match thread.subtitle_thread with | none => 0 | some s => s.input.items.length)

/-- What one call of `avcodec_decode_video2` or `avcodec_decode_audio4`
answered: the returned length, whether a frame was finished, the best-effort
timestamp of the frame in seconds (already multiplied by the time base of the
stream), and the converted frame (a frame handle for video, the converted
sample bytes for audio). -/
structure DecodeResult (φ : Type) where
  len : Int
  frame_finished : Bool
  timestamp : ℚ
  payload : φ
deriving DecidableEq, Repr

/-- What a call of a packet handler did: its return value, the decoder thread
afterwards, the lengths that the decode calls returned (in order), the input
packets passed to `_FreeAVPacket`, and the output packets freed because the
write to the output queue failed. -/
structure HandlerResult (α L : Type) where
  ret : Int
  thread : Kit_DecoderThread α L
  lens : List Int
  freed_input : List AVPacket
  freed_output : List α
deriving DecidableEq, Repr

/-- The function `_CreateVideoPacket(frame, pts)`. -/
def _CreateVideoPacket (frame : Nat) (pts : ℚ) : Kit_VideoPacket :=
  { pts := pts, frame := frame }

/-- The function `_CreateAudioPacket(data, len, pts)`: a ring buffer that holds
the `len` bytes of `data`; `original_size` stays 0 out of `calloc`. -/
def _CreateAudioPacket (data : List Nat) (pts : ℚ) : Kit_AudioPacket :=
  { pts := pts, original_size := 0, rb := { data := data } }

/-- The loop `while(packet->size > 0)` of `_HandleVideoPacket` and of
`_HandleAudioPacket` with the code after it; the two loops differ only in how
the output packet is made (`mk`). `decode k packet` is the answer of decode
call number `k`, `wake k` what a full output queue holds when the wait of that
pass returns. The result is `none` when `fuel` passes did not finish the
loop. -/
def decodeLoop {α L φ : Type} (decode : Nat → AVPacket → DecodeResult φ) (mk : φ → ℚ → α)
    (wake : Nat → Kit_Buffer α → Kit_Buffer α) :
    Nat → Nat → Kit_DecoderThread α L → AVPacket → Option (HandlerResult α L)
  | 0, _, thread, packet =>
    if packet.size > 0 then none
    else some { ret := 0, thread := thread, lens := [], freed_input := [packet],
                freed_output := [] }
  | fuel + 1, k, thread, packet =>
    if packet.size > 0 then
      let r := decode k packet
      if r.len < 0 then
        some { ret := 1, thread := thread, lens := [r.len], freed_input := [packet],
               freed_output := [] }
      else
        let pts : ℚ := if packet.dts.isSome then r.timestamp else 0
        let w : Int × Kit_DecoderThread α L :=
          if r.frame_finished then Kit_ThreadWriteOutput thread (mk r.payload pts) (wake k)
          else (0, thread)
        let dropped : List α :=
          if r.frame_finished = true ∧ w.1 ≠ 0 then [mk r.payload pts] else []
        match decodeLoop decode mk wake fuel (k + 1) w.2
            { packet with size := packet.size - r.len } with
        | none => none
        | some h =>
          some { h with lens := r.len :: h.lens, freed_output := dropped ++ h.freed_output }
    else
      some { ret := 0, thread := thread, lens := [], freed_input := [packet],
             freed_output := [] }

/-- The function `_HandleVideoPacket(thread, local)`. -/
def _HandleVideoPacket (fuel : Nat) (decode : Nat → AVPacket → DecodeResult Nat)
    (wake : Nat → Kit_Buffer Kit_VideoPacket → Kit_Buffer Kit_VideoPacket)
    (thread : VideoThread) : Outcome (HandlerResult Kit_VideoPacket Kit_VideoDecThread) :=
  let r := Kit_ThreadReadInput thread
  if r.1 ≠ 0 then
    .done { ret := 0, thread := r.2.2, lens := [], freed_input := [], freed_output := [] }
  else
    match r.2.1 with
    | none => .crash
    | some packet =>
      match decodeLoop decode _CreateVideoPacket wake fuel 0 r.2.2 packet with
      | none => .out_of_fuel
      | some h => .done h

/-- The function `_HandleAudioPacket(thread, local)`. -/
def _HandleAudioPacket (fuel : Nat) (decode : Nat → AVPacket → DecodeResult (List Nat))
    (wake : Nat → Kit_Buffer Kit_AudioPacket → Kit_Buffer Kit_AudioPacket)
    (thread : AudioThread) : Outcome (HandlerResult Kit_AudioPacket Kit_AudioDecThread) :=
  let r := Kit_ThreadReadInput thread
  if r.1 ≠ 0 then
    .done { ret := 0, thread := r.2.2, lens := [], freed_input := [], freed_output := [] }
  else
    match r.2.1 with
    | none => .crash
    | some packet =>
      match decodeLoop decode _CreateAudioPacket wake fuel 0 r.2.2 packet with
      | none => .out_of_fuel
      | some h => .done h

/-! ## Concrete inputs -/

/-- A source with audio stream 1, video stream 0 and no subtitle stream. -/
def sampleSource : Kit_Source :=
  { astream_idx := 1, vstream_idx := 0, sstream_idx := -1 }

/-- A player without decoder threads, in the given state, with
clock_sync 10 and pause_start 4. -/
def samplePlayer (state : Kit_PlayerState) : Kit_Player :=
  { state := state, clock_sync := 10, pause_start := 4, src := sampleSource,
    audio_thread := none, video_thread := none, subtitle_thread := none }

/-- A video decoder thread whose output queue holds `items`. -/
def sampleVideoThread (items : List Kit_VideoPacket) : VideoThread :=
  { state := .KIT_DECTHREAD_RUNNING, input := { size := 2, items := [] },
    output := { size := 2, items := items }, stream_index := 0,
    «local» := { format := { is_enabled := true, stream_idx := 0,
                             format := SDL_PIXELFORMAT_YV12, width := 640, height := 480 } } }

/-- An audio decoder thread (signed 16 bit, stereo, 48 kHz) whose output queue
holds `items`. -/
def sampleAudioThread (items : List Kit_AudioPacket) : AudioThread :=
  { state := .KIT_DECTHREAD_RUNNING, input := { size := 3, items := [] },
    output := { size := 64, items := items }, stream_index := 1,
    «local» := { format := { is_enabled := true, stream_idx := 1, format := 0x8010,
                             is_signed := true, bytes := 2, samplerate := 48000,
                             channels := 2 } } }

/-- A player in the given state holding the two sample decoder threads. -/
def sampleLoadedPlayer (state : Kit_PlayerState) : Kit_Player :=
  { state := state, clock_sync := 10, pause_start := 4, src := sampleSource,
    audio_thread := some (sampleAudioThread [{ pts := 0, original_size := 4, rb := { data := [1, 2, 3, 4] } }]),
    video_thread := some (sampleVideoThread [{ pts := 0, frame := 7 }, { pts := 1, frame := 8 }]),
    subtitle_thread := none }

/-- A world that holds no resource and has no error set. -/
def emptyWorld : World :=
  { live := [], error := none }

/-- A codec context of a 640x480 YUV420P video stream or a 48 kHz stereo
signed 16 bit audio stream. -/
def sampleCodecContext : AVCodecContext :=
  { width := 640, height := 480, pix_fmt := .AV_PIX_FMT_YUV420P, sample_rate := 48000,
    channels := 2, sample_fmt := .AV_SAMPLE_FMT_S16 }

/-- Answers under which every creation call succeeds. -/
def sampleCreateEnv : CreateEnv :=
  { codec_ctx := sampleCodecContext }

/-- Answers under which the whole player construction succeeds. -/
def samplePlayerEnv : PlayerEnv :=
  { audio := sampleCreateEnv, video := sampleCreateEnv }

/-- A source of a container with three streams: video 0, audio 1 and a
subtitle stream selected at index 2. -/
def subtitleSource : Kit_Source :=
  { astream_idx := 1, vstream_idx := 0, sstream_idx := 2,
    format_ctx := { nb_streams := 3, duration := 0 } }

/-- A handler for sample runs: it takes one packet off the input queue and
returns 0, or returns 1 when the input queue is empty. -/
def sampleHandler (thread : VideoThread) : Int × VideoThread :=
  match thread.input.items with
  | [] => (1, thread)
  | _ :: rest => (0, { thread with input := { thread.input with items := rest } })

/-- A video decoder thread in the given state whose input queue holds one
packet and whose output queue holds one frame. -/
def sampleWorker (state : Kit_DecoderThreadStatus) : VideoThread :=
  { sampleVideoThread [{ pts := 0, frame := 7 }] with
    state := state, input := { size := 2, items := [{ stream_index := 0, size := 10 }] } }

/-- A running demuxer that points to the sample video thread (stream 0) and
the sample audio thread (stream 1), both with empty input queues, and to no
subtitle thread. -/
def sampleDemux : Kit_DemuxThread :=
  { src := subtitleSource, state := .KIT_DEMUXTHREAD_RUNNING,
    video_thread := some (sampleVideoThread []),
    audio_thread := some (sampleAudioThread []),
    subtitle_thread := none }

/-- A running demuxer whose video thread (stream 0) has a full input queue of
two packets. -/
def sampleDemuxFull : Kit_DemuxThread :=
  { src := subtitleSource, state := .KIT_DEMUXTHREAD_RUNNING,
    video_thread := some
      { sampleVideoThread [] with
        input := { size := 2, items := [{ stream_index := 0, size := 10 },
                                        { stream_index := 0, size := 20 }] } },
    audio_thread := some (sampleAudioThread []),
    subtitle_thread := none }

/-- A video decoder for sample runs: every call consumes 4 bytes and finishes
frame number `k`, due at `k / 25` s. -/
def sampleVideoDecode (k : Nat) (_packet : AVPacket) : DecodeResult Nat :=
  { len := 4, frame_finished := true, timestamp := (k : ℚ) / 25, payload := k }

/-- A video decoder for sample runs that fails on its second call: call 0
consumes 4 bytes and finishes frame 9, every later call returns −1. -/
def sampleFailingDecode (k : Nat) (_packet : AVPacket) : DecodeResult Nat :=
  if k = 0 then { len := 4, frame_finished := true, timestamp := 1 / 2, payload := 9 }
  else { len := -1, frame_finished := false, timestamp := 0, payload := 0 }

/-- An audio decoder for sample runs: every call consumes 4 bytes and finishes
a frame of four converted bytes. -/
def sampleAudioDecode (k : Nat) (_packet : AVPacket) : DecodeResult (List Nat) :=
  { len := 4, frame_finished := true, timestamp := (k : ℚ) / 50, payload := [1, 2, 3, 4] }

/-- An audio decoder thread whose input queue holds one packet of 8 bytes and
whose output queue is empty. -/
def sampleAudioWorker : AudioThread :=
  { sampleAudioThread [] with
    input := { size := 3, items := [{ stream_index := 1, size := 8 }] } }

/-- An audio decoder for sample runs that fails: every call returns −1. -/
def sampleFailingAudioDecode (_k : Nat) (_packet : AVPacket) : DecodeResult (List Nat) :=
  { len := -1, frame_finished := false, timestamp := 0, payload := [] }

/-! ## Theorems: the presentation clock -/

/-- C1: from `playing` with clock_sync `c`, pause at `t1` then play at `t2`
leaves the state `playing` and clock_sync `c + (t2 − t1)`, so the media time
right after play equals the media time right before pause. -/
theorem pause_play_preserves_media_time (player : Kit_Player) (t1 t2 : ℚ)
    (h : player.state = .KIT_PLAYING) :
    (Kit_PlayerPlay (Kit_PlayerPause player t1) t2).state = .KIT_PLAYING ∧
    (Kit_PlayerPlay (Kit_PlayerPause player t1) t2).clock_sync
      = player.clock_sync + (t2 - t1) ∧
    mediaTime (Kit_PlayerPlay (Kit_PlayerPause player t1) t2) t2 = mediaTime player t1 := by
  simp [Kit_PlayerPlay, Kit_PlayerPause, mediaTime, h]
  ring

/-- Witness of C1: playing since wall time 10, paused at 12, resumed at 15. -/
theorem pause_play_preserves_media_time_witness :
    (samplePlayer .KIT_PLAYING).state = .KIT_PLAYING ∧
    (Kit_PlayerPlay (Kit_PlayerPause (samplePlayer .KIT_PLAYING) 12) 15).state = .KIT_PLAYING ∧
    (Kit_PlayerPlay (Kit_PlayerPause (samplePlayer .KIT_PLAYING) 12) 15).clock_sync
      = (samplePlayer .KIT_PLAYING).clock_sync + (15 - 12) ∧
    mediaTime (Kit_PlayerPlay (Kit_PlayerPause (samplePlayer .KIT_PLAYING) 12) 15) 15
      = mediaTime (samplePlayer .KIT_PLAYING) 12 :=
  ⟨rfl, pause_play_preserves_media_time (samplePlayer .KIT_PLAYING) 12 15 rfl⟩

/-- C2: `Kit_PlayerStop` keeps clock_sync and pause_start and sets the state to
`stopped`; a following `Kit_PlayerPlay` at wall time `t` sets clock_sync to `t`
and the state to `playing`, so media time restarts at 0. -/
theorem stop_then_play_restarts (player : Kit_Player) (t : ℚ) :
    (Kit_PlayerStop player).clock_sync = player.clock_sync ∧
    (Kit_PlayerStop player).pause_start = player.pause_start ∧
    (Kit_PlayerStop player).state = .KIT_STOPPED ∧
    (Kit_PlayerPlay (Kit_PlayerStop player) t).clock_sync = t ∧
    (Kit_PlayerPlay (Kit_PlayerStop player) t).state = .KIT_PLAYING ∧
    mediaTime (Kit_PlayerPlay (Kit_PlayerStop player) t) t = 0 := by
  by_cases h : player.state = .KIT_STOPPED <;>
    simp [Kit_PlayerPlay, Kit_PlayerStop, mediaTime, h]

/-- C3: `Kit_PlayerPause` acts only from `playing`: there it sets pause_start
to the wall time and the state to `paused` and keeps clock_sync; from `stopped`
or `paused` the player is returned unchanged. -/
theorem pause_only_from_playing (player : Kit_Player) (t : ℚ) :
    (player.state = .KIT_PLAYING →
      Kit_PlayerPause player t = { player with pause_start := t, state := .KIT_PAUSED } ∧
      (Kit_PlayerPause player t).clock_sync = player.clock_sync) ∧
    (player.state ≠ .KIT_PLAYING → Kit_PlayerPause player t = player) := by
  constructor
  · intro h
    simp [Kit_PlayerPause, h]
  · intro h
    simp [Kit_PlayerPause, h]

/-- Witness of C3: a playing player is paused at wall time 12, and a stopped
player is left as it is. -/
theorem pause_only_from_playing_witness :
    ((samplePlayer .KIT_PLAYING).state = .KIT_PLAYING ∧
      Kit_PlayerPause (samplePlayer .KIT_PLAYING) 12
        = { samplePlayer .KIT_PLAYING with pause_start := 12, state := .KIT_PAUSED } ∧
      (Kit_PlayerPause (samplePlayer .KIT_PLAYING) 12).clock_sync
        = (samplePlayer .KIT_PLAYING).clock_sync) ∧
    ((samplePlayer .KIT_STOPPED).state ≠ .KIT_PLAYING ∧
      Kit_PlayerPause (samplePlayer .KIT_STOPPED) 12 = samplePlayer .KIT_STOPPED) :=
  ⟨⟨rfl, (pause_only_from_playing (samplePlayer .KIT_PLAYING) 12).1 rfl⟩,
   ⟨by decide, (pause_only_from_playing (samplePlayer .KIT_STOPPED) 12).2 (by decide)⟩⟩


/-- One call with a reading not after `bound` keeps the clock invariant. -/
lemma clockInv_applyCall (bound : ℚ) (player : Kit_Player) (call : PlayerCall × ℚ)
    (hinv : clockInv bound player) (hle : call.2 ≤ bound) :
    clockInv bound (applyCall player call) := by
  obtain ⟨op, t⟩ := call
  cases op with
  | play =>
    rcases hinv with h | ⟨h, _⟩
    · left
      simp [applyCall, Kit_PlayerPlay, h]
    · left
      simp [applyCall, Kit_PlayerPlay, h]
  | pause =>
    rcases hinv with h | ⟨h, hp⟩
    · right
      simpa [applyCall, Kit_PlayerPause, h] using hle
    · right
      simp [applyCall, Kit_PlayerPause, h, hp]

/-- A run of calls whose readings are all not after `bound` keeps the clock
invariant. -/
lemma clockInv_runCalls (bound : ℚ) (calls : List (PlayerCall × ℚ)) :
    ∀ player : Kit_Player, clockInv bound player → (∀ c ∈ calls, c.2 ≤ bound) →
      clockInv bound (runCalls player calls) := by
  induction calls with
  | nil =>
    intro player hinv _
    simpa [runCalls] using hinv
  | cons c rest ih =>
    intro player hinv hle
    have hstep : clockInv bound (applyCall player c) :=
      clockInv_applyCall bound player c hinv (hle c (List.mem_cons_self _ _))
    have hrest := ih (applyCall player c) hstep
      (fun d hd => hle d (List.mem_cons_of_mem _ hd))
    simpa [runCalls] using hrest

/-- C4: along any sequence of pause and play calls applied to a playing
player, with non-decreasing wall-clock readings, each call leaves clock_sync
greater than or equal to its value before the call, and clock_sync changes
only on a play that leaves `paused`. -/
theorem clock_sync_monotone_over_pause_play (player : Kit_Player)
    (pre post : List (PlayerCall × ℚ)) (call : PlayerCall × ℚ)
    (hstate : player.state = .KIT_PLAYING)
    (htimes : List.Pairwise (fun a b => a ≤ b) ((pre ++ call :: post).map Prod.snd)) :
    (runCalls player pre).clock_sync ≤ (applyCall (runCalls player pre) call).clock_sync ∧
    ((applyCall (runCalls player pre) call).clock_sync ≠ (runCalls player pre).clock_sync →
      call.1 = .play ∧ (runCalls player pre).state = .KIT_PAUSED) := by
  have hpre : ∀ c ∈ pre, c.2 ≤ call.2 := by
    intro c hc
    rw [List.map_append, List.pairwise_append] at htimes
    exact htimes.2.2 c.2 (List.mem_map_of_mem _ hc) call.2 (by simp)
  have hinv : clockInv call.2 (runCalls player pre) :=
    clockInv_runCalls call.2 pre player (Or.inl hstate) hpre
  obtain ⟨op, t⟩ := call
  cases op with
  | play =>
    rcases hinv with h | ⟨h, hp⟩
    · simp [applyCall, Kit_PlayerPlay, h]
    · have hp2 : (runCalls player pre).pause_start ≤ t := hp
      simp [applyCall, Kit_PlayerPlay, h]
      linarith
  | pause =>
    rcases hinv with h | ⟨h, _⟩
    · simp [applyCall, Kit_PlayerPause, h]
    · simp [applyCall, Kit_PlayerPause, h]

/-- Witness of C4: pause at 12, play at 15, pause at 15, then play at 20;
the call examined is the play at 20. -/
theorem clock_sync_monotone_over_pause_play_witness :
    (runCalls (samplePlayer .KIT_PLAYING) [(.pause, 12), (.play, 15), (.pause, 15)]).clock_sync
      ≤ (applyCall (runCalls (samplePlayer .KIT_PLAYING)
          [(.pause, 12), (.play, 15), (.pause, 15)]) (.play, 20)).clock_sync ∧
    ((applyCall (runCalls (samplePlayer .KIT_PLAYING)
          [(.pause, 12), (.play, 15), (.pause, 15)]) (.play, 20)).clock_sync
        ≠ (runCalls (samplePlayer .KIT_PLAYING)
          [(.pause, 12), (.play, 15), (.pause, 15)]).clock_sync →
      (PlayerCall.play, (20 : ℚ)).1 = .play ∧
      (runCalls (samplePlayer .KIT_PLAYING)
          [(.pause, 12), (.play, 15), (.pause, 15)]).state = .KIT_PAUSED) :=
  clock_sync_monotone_over_pause_play (samplePlayer .KIT_PLAYING)
    [(.pause, 12), (.play, 15), (.pause, 15)] [(.pause, 21)] (.play, 20) rfl
    (by simp; norm_num)


/-! ## Theorems: the pull API of the player -/

/-- C5: when the player is not playing (stopped or paused) or the relevant
stream index of the source is -1, each of `Kit_GetVideoData`,
`Kit_GetAudioData` and `Kit_GetSubtitleData` returns 0 without reaching the
decoder level, and the player with all its queues is unchanged, whatever the
queues contain. -/
theorem pull_is_noop_unless_playing_and_set (toInt : ℚ → Int) (fuel : Nat)
    (player : Kit_Player) (now : ℚ) (length cur_buf_len : Int) :
    (player.state = .KIT_STOPPED ∨ player.state = .KIT_PAUSED ∨ player.src.vstream_idx = -1 →
      Kit_GetVideoData fuel player now
        = .done { ret := 0, player := player, effects := none }) ∧
    (player.state = .KIT_STOPPED ∨ player.state = .KIT_PAUSED ∨ player.src.astream_idx = -1 →
      Kit_GetAudioData toInt fuel player now length cur_buf_len
        = .done { ret := 0, player := player, effects := none }) ∧
    (player.state = .KIT_STOPPED ∨ player.state = .KIT_PAUSED ∨ player.src.sstream_idx = -1 →
      Kit_GetSubtitleData player = { ret := 0, player := player, effects := none }) := by
  refine ⟨?_, ?_, ?_⟩
  · intro h
    unfold Kit_GetVideoData
    rcases h with h | h | h
    · simp [h]
    · simp [h]
    · simp [h]
  · intro h
    unfold Kit_GetAudioData
    rcases h with h | h | h
    · simp [h]
    · simp [h]
    · simp [h]
  · intro _
    unfold Kit_GetSubtitleData
    split_ifs <;> rfl

/-- Witness of C5: a paused player with non-empty audio and video queues. -/
theorem pull_is_noop_unless_playing_and_set_witness :
    (sampleLoadedPlayer .KIT_PAUSED).state = .KIT_PAUSED ∧
    Kit_GetVideoData 5 (sampleLoadedPlayer .KIT_PAUSED) 11
      = .done { ret := 0, player := sampleLoadedPlayer .KIT_PAUSED, effects := none } ∧
    Kit_GetAudioData doubleToInt 5 (sampleLoadedPlayer .KIT_PAUSED) 11 4096 0
      = .done { ret := 0, player := sampleLoadedPlayer .KIT_PAUSED, effects := none } ∧
    Kit_GetSubtitleData (sampleLoadedPlayer .KIT_PAUSED)
      = { ret := 0, player := sampleLoadedPlayer .KIT_PAUSED, effects := none } :=
  have h := pull_is_noop_unless_playing_and_set doubleToInt 5
    (sampleLoadedPlayer .KIT_PAUSED) 11 4096 0
  ⟨rfl, h.1 (Or.inr (Or.inl rfl)), h.2.1 (Or.inr (Or.inl rfl)), h.2.2 (Or.inr (Or.inl rfl))⟩

/-- C6: `Kit_GetAudioData` with `length = 0` returns 0 without reaching the
decoder level and leaves the player, hence its audio output queue, unchanged,
for every player and state. -/
theorem audio_pull_of_zero_length (toInt : ℚ → Int) (fuel : Nat) (player : Kit_Player)
    (now : ℚ) (cur_buf_len : Int) :
    Kit_GetAudioData toInt fuel player now 0 cur_buf_len
      = .done { ret := 0, player := player, effects := none } := by
  unfold Kit_GetAudioData
  split_ifs <;> first | rfl | simp_all


/-! ## Theorems: the output queue of a decoder thread -/

/-- The call `Kit_ThreadAdvanceOutput` returns 0 and the thread it was given: with a
NULL `packet` argument `_ThreadRead` never calls `Kit_ReadBuffer`. -/
lemma advance_output_eq {α L : Type} (thread : Kit_DecoderThread α L) :
    Kit_ThreadAdvanceOutput thread = (0, thread) := by
  simp [Kit_ThreadAdvanceOutput, _ThreadRead]

/-- C7 (the code at a two-item queue): `Kit_ThreadAdvanceOutput` returns every
thread unchanged; on the queue `[pts 0, pts 1]` the count stays 2 and the next
peek is still the first item, whereas `advance()` as the spec words it leaves
one item and the next peek is the second. -/
theorem advance_output_keeps_head_item :
    (∀ thread : VideoThread, (Kit_ThreadAdvanceOutput thread).2 = thread) ∧
    outputCount (Kit_ThreadAdvanceOutput
      (sampleVideoThread [{ pts := 0, frame := 7 }, { pts := 1, frame := 8 }])).2 = 2 ∧
    Kit_ThreadPeekOutput (Kit_ThreadAdvanceOutput
      (sampleVideoThread [{ pts := 0, frame := 7 }, { pts := 1, frame := 8 }])).2
      = some { pts := 0, frame := 7 } ∧
    outputCount (spec_advance
      (sampleVideoThread [{ pts := 0, frame := 7 }, { pts := 1, frame := 8 }])).2 = 1 ∧
    Kit_ThreadPeekOutput (spec_advance
      (sampleVideoThread [{ pts := 0, frame := 7 }, { pts := 1, frame := 8 }])).2
      = some { pts := 1, frame := 8 } := by
  refine ⟨fun thread => by rw [advance_output_eq], ?_, ?_, ?_, ?_⟩
  · rw [advance_output_eq]
    rfl
  · rw [advance_output_eq]
    rfl
  · rfl
  · rfl

/-! ## Theorems: the video pull -/

/-- C8: with `current = now − clock_sync`, if the output queue is empty or its
head packet has `pts > current + 0.01`, `Kit_GetVideoDecoderData` returns 0,
leaves the thread (and so the output queue) unchanged, frees no packet and
makes no texture update. -/
theorem video_pull_empty_or_early (fuel : Nat) (thread : VideoThread) (clock_sync now : ℚ)
    (h : thread.output.items = [] ∨
      ∃ p rest, thread.output.items = p :: rest ∧ p.pts > (now - clock_sync) + 1 / 100) :
    Kit_GetVideoDecoderData fuel thread clock_sync now
      = .done { ret := 0, thread := thread, texture := none, freed := [] } := by
  rcases h with h | ⟨p, rest, hq, hp⟩
  · simp [Kit_GetVideoDecoderData, Kit_ThreadPeekOutput, _ThreadPeek, Kit_PeekBuffer, h]
  · simp [Kit_GetVideoDecoderData, Kit_ThreadPeekOutput, _ThreadPeek, Kit_PeekBuffer, hq,
      VIDEO_SYNC_THRESHOLD]
    intro hnot
    exact absurd hp (not_lt.mpr (by simpa using hnot))

/-- Witness of C8: the head frame is due at media time 1 and the media time is
1/2; the empty queue is the other case. -/
theorem video_pull_empty_or_early_witness :
    Kit_GetVideoDecoderData 5 (sampleVideoThread [{ pts := 1, frame := 8 }]) 10 (21 / 2)
      = .done { ret := 0, thread := sampleVideoThread [{ pts := 1, frame := 8 }],
                texture := none, freed := [] } ∧
    Kit_GetVideoDecoderData 5 (sampleVideoThread []) 10 (21 / 2)
      = .done { ret := 0, thread := sampleVideoThread [], texture := none, freed := [] } :=
  ⟨video_pull_empty_or_early 5 (sampleVideoThread [{ pts := 1, frame := 8 }]) 10 (21 / 2)
      (Or.inr ⟨{ pts := 1, frame := 8 }, [], rfl, by norm_num⟩),
   video_pull_empty_or_early 5 (sampleVideoThread []) 10 (21 / 2) (Or.inl rfl)⟩

/-- While the head of the output queue is not above `cur_video_ts − 0.01`, the
skip loop of the video pull is still running after any number of iterations. -/
lemma videoSkipLoop_late (cur_video_ts : ℚ) (thread : VideoThread) (p : Kit_VideoPacket)
    (rest : List Kit_VideoPacket) (hq : thread.output.items = p :: rest)
    (hp : ¬ p.pts > cur_video_ts - VIDEO_SYNC_THRESHOLD) :
    ∀ (fuel : Nat) (packet : Kit_VideoPacket),
      videoSkipLoop cur_video_ts fuel thread packet = none := by
  intro fuel
  induction fuel with
  | zero =>
    intro packet
    rfl
  | succ n ih =>
    intro packet
    rw [videoSkipLoop, advance_output_eq]
    simp only [Kit_ThreadPeekOutput, _ThreadPeek, Kit_PeekBuffer, hq, List.head?_cons]
    rw [if_neg hp]
    exact ih p

/-- A lagging head packet keeps `Kit_GetVideoDecoderData` in its skip loop for
every iteration budget. -/
lemma video_pull_late_runs_on (fuel : Nat) (thread : VideoThread) (clock_sync now : ℚ)
    (p : Kit_VideoPacket) (rest : List Kit_VideoPacket)
    (hq : thread.output.items = p :: rest)
    (hp : p.pts < (now - clock_sync) - VIDEO_SYNC_THRESHOLD) :
    Kit_GetVideoDecoderData fuel thread clock_sync now = .out_of_fuel := by
  have hnot : ¬ p.pts > (now - clock_sync) - VIDEO_SYNC_THRESHOLD := not_lt.mpr hp.le
  have hearly : ¬ p.pts > (now - clock_sync) + VIDEO_SYNC_THRESHOLD := by
    have : (0 : ℚ) < VIDEO_SYNC_THRESHOLD := by norm_num [VIDEO_SYNC_THRESHOLD]
    intro hgt
    linarith
  unfold Kit_GetVideoDecoderData
  simp only [Kit_ThreadPeekOutput, _ThreadPeek, Kit_PeekBuffer, hq, List.head?_cons]
  rw [if_neg hearly, if_pos hp, videoSkipLoop_late (now - clock_sync) thread p rest hq hnot]

/-- C9 (the code at a lagging head): with the output queue `[pts 0, pts 5]`,
clock_sync 0 and wall time 5, the head is late and the second packet is on
time, yet for every iteration budget `Kit_GetVideoDecoderData` is still in its
skip loop: it discards nothing and delivers no frame. -/
theorem video_pull_late_never_returns :
    ∀ fuel : Nat,
      Kit_GetVideoDecoderData fuel
        (sampleVideoThread [{ pts := 0, frame := 7 }, { pts := 5, frame := 8 }]) 0 5
        = .out_of_fuel := by
  intro fuel
  exact video_pull_late_runs_on fuel _ 0 5 { pts := 0, frame := 7 } [{ pts := 5, frame := 8 }]
    rfl (by norm_num [VIDEO_SYNC_THRESHOLD])


/-! ## Theorems: the audio pull -/

/-- While the head of the output queue is not above `cur_audio_ts − 0.05`, the
skip loop of the audio pull is still running after any number of iterations. -/
lemma audioSkipLoop_late (cur_audio_ts : ℚ) (thread : AudioThread) (p : Kit_AudioPacket)
    (rest : List Kit_AudioPacket) (hq : thread.output.items = p :: rest)
    (hp : ¬ p.pts > cur_audio_ts - AUDIO_SYNC_THRESHOLD) :
    ∀ (fuel : Nat) (packet : Kit_AudioPacket),
      audioSkipLoop cur_audio_ts fuel thread packet = none := by
  intro fuel
  induction fuel with
  | zero =>
    intro packet
    rfl
  | succ n ih =>
    intro packet
    rw [audioSkipLoop, advance_output_eq]
    simp only [Kit_ThreadPeekOutput, _ThreadPeek, Kit_PeekBuffer, hq, List.head?_cons]
    rw [if_neg hp]
    exact ih p

/-- A lagging head packet keeps `Kit_GetAudioDecoderData` in its skip loop for
every iteration budget, whenever `bytes * channels * samplerate` is not 0. -/
lemma audio_pull_late_runs_on (toInt : ℚ → Int) (fuel : Nat) (thread : AudioThread)
    (clock_sync now : ℚ)
    (length cur_buf_len : Int) (p : Kit_AudioPacket) (rest : List Kit_AudioPacket)
    (hq : thread.output.items = p :: rest)
    (hdiv : thread.local.format.bytes * thread.local.format.channels
      * thread.local.format.samplerate ≠ 0)
    (hp : p.pts < now - clock_sync
      + (cur_buf_len : ℚ) / ((thread.local.format.bytes * thread.local.format.channels
          * thread.local.format.samplerate : Int) : ℚ) - AUDIO_SYNC_THRESHOLD) :
    Kit_GetAudioDecoderData toInt fuel thread clock_sync now length cur_buf_len = .out_of_fuel := by
  have hbps : ¬ (((thread.local.format.bytes * thread.local.format.channels
      * thread.local.format.samplerate : Int) : ℚ) = 0) := by
    exact_mod_cast hdiv
  have hnot := not_lt.mpr hp.le
  have hearly : ¬ p.pts > now - clock_sync
      + (cur_buf_len : ℚ) / ((thread.local.format.bytes * thread.local.format.channels
          * thread.local.format.samplerate : Int) : ℚ) + AUDIO_SYNC_THRESHOLD := by
    have : (0 : ℚ) < AUDIO_SYNC_THRESHOLD := by norm_num [AUDIO_SYNC_THRESHOLD]
    intro hgt
    linarith
  unfold Kit_GetAudioDecoderData
  simp only [Kit_ThreadPeekOutput, _ThreadPeek, Kit_PeekBuffer, hq, List.head?_cons]
  rw [if_neg hbps, if_neg hearly, if_pos hp, audioSkipLoop_late _ thread p rest hq hnot]

/-- C11 (the code at a lagging head): with the output queue `[pts 0, pts 5]`
(signed 16 bit stereo, 48 kHz), clock_sync 0, wall time 5 and nothing buffered,
the head is late and the second packet is on time, yet for every iteration
budget `Kit_GetAudioDecoderData` is still in its skip loop: it discards
nothing and copies no byte. -/
theorem audio_pull_late_never_returns :
    ∀ (toInt : ℚ → Int) (fuel : Nat),
      Kit_GetAudioDecoderData toInt fuel
        (sampleAudioThread
          [{ pts := 0, original_size := 4, rb := { data := [1, 2, 3, 4] } },
           { pts := 5, original_size := 4, rb := { data := [5, 6, 7, 8] } }]) 0 5 4096 0
        = .out_of_fuel := by
  intro toInt fuel
  exact audio_pull_late_runs_on toInt fuel _ 0 5 4096 0
    { pts := 0, original_size := 4, rb := { data := [1, 2, 3, 4] } }
    [{ pts := 5, original_size := 4, rb := { data := [5, 6, 7, 8] } }]
    rfl (by decide) (by norm_num [sampleAudioThread, AUDIO_SYNC_THRESHOLD])

/-- C12: when the head packet `p` is within tolerance
(`current − 0.05 ≤ pts ≤ current + 0.05`) and `length > 0`, the call returns
`ret = min length (bytes left in the ring of p)` and writes the first `ret`
bytes of that ring; if the ring is then empty (`bytes left ≤ length`) the
packet is removed from the output queue and freed, otherwise it stays at the
head with the copied bytes gone from its ring and its pts increased by exactly
`ret / (bytes * channels * samplerate)`, and nothing is freed. -/
theorem audio_pull_in_tolerance_copies (toInt : ℚ → Int) (fuel : Nat) (thread : AudioThread)
    (clock_sync now : ℚ) (length cur_buf_len : Int)
    (p : Kit_AudioPacket) (rest : List Kit_AudioPacket) (bps : Int) (current : ℚ)
    (hq : thread.output.items = p :: rest)
    (hbps : bps = thread.local.format.bytes * thread.local.format.channels
      * thread.local.format.samplerate)
    (hdiv : bps ≠ 0)
    (hcur : current = now - clock_sync + (cur_buf_len : ℚ) / (bps : ℚ))
    (hlo : current - 5 / 100 ≤ p.pts) (hhi : p.pts ≤ current + 5 / 100)
    (hlen : 0 < length) :
    ∃ r : AudioPull,
      Kit_GetAudioDecoderData toInt fuel thread clock_sync now length cur_buf_len = .done r ∧
      r.ret = min length (p.rb.data.length : Int) ∧
      r.written = .data (p.rb.data.take r.ret.toNat) ∧
      ((p.rb.data.length : Int) ≤ length →
        r.thread = { thread with output := { thread.output with items := rest } } ∧
        r.freed = [{ p with rb := { data := [] } }]) ∧
      (length < (p.rb.data.length : Int) →
        r.thread = { thread with output := { thread.output with items :=
          { pts := p.pts + (r.ret : ℚ) / (bps : ℚ), original_size := p.original_size,
            rb := { data := p.rb.data.drop r.ret.toNat } } :: rest } } ∧
        r.freed = []) := by
  subst hbps
  subst hcur
  have hbps : ¬ (((thread.local.format.bytes * thread.local.format.channels
      * thread.local.format.samplerate : Int) : ℚ) = 0) := by
    exact_mod_cast hdiv
  have hearly : ¬ p.pts > now - clock_sync
      + (cur_buf_len : ℚ) / ((thread.local.format.bytes * thread.local.format.channels
          * thread.local.format.samplerate : Int) : ℚ) + AUDIO_SYNC_THRESHOLD := by
    simpa [AUDIO_SYNC_THRESHOLD] using hhi
  have hlate : ¬ p.pts < now - clock_sync
      + (cur_buf_len : ℚ) / ((thread.local.format.bytes * thread.local.format.channels
          * thread.local.format.samplerate : Int) : ℚ) - AUDIO_SYNC_THRESHOLD := by
    simpa [AUDIO_SYNC_THRESHOLD] using hlo
  have hnat : ((min length.toNat p.rb.data.length : Nat) : Int)
      = min length (p.rb.data.length : Int) := by
    rw [Nat.cast_min, Int.toNat_of_nonneg hlen.le]
  unfold Kit_GetAudioDecoderData
  simp only [Kit_ThreadPeekOutput, _ThreadPeek, Kit_PeekBuffer, hq, List.head?_cons]
  rw [if_neg hbps, if_neg hearly, if_neg hlate]
  unfold audioCopy
  simp only [if_pos hlen, Kit_ReadRingBuffer, Kit_GetRingBufferLength, storeHead, hq]
  by_cases hdr : (p.rb.data.length : Int) ≤ length
  · have hle : p.rb.data.length ≤ length.toNat := by omega
    have hmin : min length.toNat p.rb.data.length = p.rb.data.length := min_eq_right hle
    rw [hmin] at hnat ⊢
    have hmin2 : min length (p.rb.data.length : Int) = (p.rb.data.length : Int) :=
      min_eq_right hdr
    simp only [List.drop_length, List.length_nil, Nat.cast_zero, if_true,
      Kit_ThreadReadOutput, _ThreadRead, Kit_ReadBuffer]
    refine ⟨_, rfl, ?_, ?_, ?_, ?_⟩
    · exact hmin2.symm
    · simp
    · intro _
      exact ⟨rfl, rfl⟩
    · intro hlt
      omega
  · have hlt : length.toNat < p.rb.data.length := by omega
    have hmin : min length.toNat p.rb.data.length = length.toNat := min_eq_left hlt.le
    rw [hmin] at hnat ⊢
    have hne : ¬ (((List.drop length.toNat p.rb.data).length : Int) = 0) := by
      rw [List.length_drop]
      omega
    have hmin2 : min length (p.rb.data.length : Int) = length :=
      min_eq_left (not_le.mp hdr).le
    have hcast : ((length.toNat : Int)) = length := Int.toNat_of_nonneg hlen.le
    rw [if_neg hne]
    refine ⟨_, rfl, ?_, ?_, ?_, ?_⟩
    · simp only [hcast, hmin2]
    · simp only [Int.toNat_ofNat]
    · intro hle
      exact absurd hle hdr
    · intro _
      simp only [Int.toNat_ofNat, and_self]

/-- Witness of C12: signed 16 bit stereo at 48 kHz, the head packet is due now
and holds 4 bytes; a request of 3 bytes copies `[1, 2, 3]`, keeps the packet at
the head with one byte left and moves its pts by `3 / 192000`. -/
theorem audio_pull_in_tolerance_copies_witness :
    Kit_GetAudioDecoderData doubleToInt 5
      (sampleAudioThread [{ pts := 0, original_size := 4, rb := { data := [1, 2, 3, 4] } }])
      10 10 3 0
      = .done
          { ret := 3,
            thread := sampleAudioThread
              [{ pts := 1 / 64000, original_size := 4, rb := { data := [4] } }],
            written := .data [1, 2, 3],
            freed := [] } := by
  obtain ⟨r, h1, h2, h3, _, h5⟩ := audio_pull_in_tolerance_copies doubleToInt 5
    (sampleAudioThread [{ pts := 0, original_size := 4, rb := { data := [1, 2, 3, 4] } }])
    10 10 3 0 { pts := 0, original_size := 4, rb := { data := [1, 2, 3, 4] } } []
    192000 0 rfl rfl (by decide) (by norm_num) (by norm_num) (by norm_num) (by decide)
  obtain ⟨h6, h7⟩ := h5 (by decide)
  obtain ⟨ret, th, wr, fr⟩ := r
  simp only at h2 h3 h6 h7
  have hret : ret = 3 := by rw [h2]; decide
  subst hret
  rw [h1, h3, h6, h7]
  norm_num [sampleAudioThread]
  exact ⟨rfl, rfl⟩

/-- C20 (the code at a frame that is due): with the output queue
`[pts 0 (frame 7), pts 1 (frame 8)]`, clock_sync 10 and wall time 10,
`Kit_GetVideoDecoderData` updates the texture from frame 7 and frees that
packet, but the thread is returned unchanged: the freed packet is still the
head of a queue of two, and the next call delivers and frees it again. -/
theorem video_pull_frees_packet_left_in_queue :
    ∀ fuel : Nat,
      Kit_GetVideoDecoderData fuel
        (sampleVideoThread [{ pts := 0, frame := 7 }, { pts := 1, frame := 8 }]) 10 10
        = .done
            { ret := 0,
              thread := sampleVideoThread [{ pts := 0, frame := 7 }, { pts := 1, frame := 8 }],
              texture := some (.yuv 7),
              freed := [{ pts := 0, frame := 7 }] } ∧
      Kit_ThreadPeekOutput
        (sampleVideoThread [{ pts := 0, frame := 7 }, { pts := 1, frame := 8 }])
        = some { pts := 0, frame := 7 } ∧
      outputCount (sampleVideoThread [{ pts := 0, frame := 7 }, { pts := 1, frame := 8 }]) = 2 := by
  intro fuel
  refine ⟨?_, rfl, rfl⟩
  unfold Kit_GetVideoDecoderData
  simp only [Kit_ThreadPeekOutput, _ThreadPeek, Kit_PeekBuffer, sampleVideoThread,
    List.head?_cons]
  norm_num [VIDEO_SYNC_THRESHOLD, videoDeliver, advance_output_eq, SDL_PIXELFORMAT_YV12]

/-! ## Theorems: the format tables -/

/-- C13: for every `AVPixelFormat` `x`, `Kit_FindPixelFormat` yields YV12 when
`x` is YUV420P in any bit depth (YUV420P, P9, P10, P12, P14, P16), YUY2 when
`x` is YUYV422, UYVY when `x` is UYVY422, and ABGR8888 for every other `x`. -/
theorem find_pixel_format_table (x : AVPixelFormat) :
    ((x = .AV_PIX_FMT_YUV420P ∨ x = .AV_PIX_FMT_YUV420P9 ∨ x = .AV_PIX_FMT_YUV420P10 ∨
        x = .AV_PIX_FMT_YUV420P12 ∨ x = .AV_PIX_FMT_YUV420P14 ∨ x = .AV_PIX_FMT_YUV420P16) →
      Kit_FindPixelFormat x = SDL_PIXELFORMAT_YV12) ∧
    (x = .AV_PIX_FMT_YUYV422 → Kit_FindPixelFormat x = SDL_PIXELFORMAT_YUY2) ∧
    (x = .AV_PIX_FMT_UYVY422 → Kit_FindPixelFormat x = SDL_PIXELFORMAT_UYVY) ∧
    (¬ (x = .AV_PIX_FMT_YUV420P ∨ x = .AV_PIX_FMT_YUV420P9 ∨ x = .AV_PIX_FMT_YUV420P10 ∨
        x = .AV_PIX_FMT_YUV420P12 ∨ x = .AV_PIX_FMT_YUV420P14 ∨ x = .AV_PIX_FMT_YUV420P16 ∨
        x = .AV_PIX_FMT_YUYV422 ∨ x = .AV_PIX_FMT_UYVY422) →
      Kit_FindPixelFormat x = SDL_PIXELFORMAT_ABGR8888) := by
  cases x <;> simp [Kit_FindPixelFormat]

/-- Witness of C13: the 10 bit YUV420P format goes to YV12, and a format the
table does not name (`other 3`) goes to ABGR8888. -/
theorem find_pixel_format_table_witness :
    Kit_FindPixelFormat .AV_PIX_FMT_YUV420P10 = SDL_PIXELFORMAT_YV12 ∧
    Kit_FindPixelFormat (.other 3) = SDL_PIXELFORMAT_ABGR8888 :=
  ⟨(find_pixel_format_table .AV_PIX_FMT_YUV420P10).1 (by decide),
   (find_pixel_format_table (.other 3)).2.2.2 (by decide)⟩

/-- C14 (as stated, refuted): IYUV is a supported host pixel format, since
`Kit_FindAVPixelFormat` maps it to YUV420P and not to `AV_PIX_FMT_NONE`, but
converting back gives YV12, so the round trip does not hold for every
supported format. -/
theorem pixel_format_roundtrip_fails :
    ¬ (∀ f : Nat, Kit_FindAVPixelFormat f ≠ .AV_PIX_FMT_NONE →
        Kit_FindPixelFormat (Kit_FindAVPixelFormat f) = f) := by
  intro h
  have h1 := h SDL_PIXELFORMAT_IYUV (by decide)
  revert h1
  decide

/-- C14 (amended): the supported host pixel formats are exactly IYUV, YV12,
YUY2, UYVY, ARGB8888 and ABGR8888; for each supported `f` other than IYUV and
ARGB8888 converting to the AV format and back gives `f` again, while IYUV
comes back as YV12 and ARGB8888 comes back as ABGR8888. -/
theorem pixel_format_roundtrip_on_outputs (f : Nat) :
    (Kit_FindAVPixelFormat f ≠ .AV_PIX_FMT_NONE ↔
      (f = SDL_PIXELFORMAT_IYUV ∨ f = SDL_PIXELFORMAT_YV12 ∨ f = SDL_PIXELFORMAT_YUY2 ∨
        f = SDL_PIXELFORMAT_UYVY ∨ f = SDL_PIXELFORMAT_ARGB8888 ∨
        f = SDL_PIXELFORMAT_ABGR8888)) ∧
    (Kit_FindAVPixelFormat f ≠ .AV_PIX_FMT_NONE → f ≠ SDL_PIXELFORMAT_IYUV →
      f ≠ SDL_PIXELFORMAT_ARGB8888 →
      Kit_FindPixelFormat (Kit_FindAVPixelFormat f) = f) ∧
    (f = SDL_PIXELFORMAT_IYUV →
      Kit_FindPixelFormat (Kit_FindAVPixelFormat f) = SDL_PIXELFORMAT_YV12) ∧
    (f = SDL_PIXELFORMAT_ARGB8888 →
      Kit_FindPixelFormat (Kit_FindAVPixelFormat f) = SDL_PIXELFORMAT_ABGR8888) := by
  refine ⟨?_, ?_, ?_, ?_⟩
  · unfold Kit_FindAVPixelFormat
    split_ifs <;> simp_all
  · intro hdef h1 h2
    unfold Kit_FindAVPixelFormat at hdef ⊢
    split_ifs at hdef ⊢ <;> simp_all [Kit_FindPixelFormat]
  · intro h
    subst h
    decide
  · intro h
    subst h
    decide

/-- Witness of C14 (amended): UYVY is supported and survives the round trip. -/
theorem pixel_format_roundtrip_on_outputs_witness :
    Kit_FindAVPixelFormat SDL_PIXELFORMAT_UYVY ≠ .AV_PIX_FMT_NONE ∧
    Kit_FindPixelFormat (Kit_FindAVPixelFormat SDL_PIXELFORMAT_UYVY) = SDL_PIXELFORMAT_UYVY :=
  ⟨by decide,
   (pixel_format_roundtrip_on_outputs SDL_PIXELFORMAT_UYVY).2.1 (by decide) (by decide)
     (by decide)⟩

/-- C15: on the supported sets the sample format and the host audio format
round-trip: for `f` among `AUDIO_U8`, `AUDIO_S16SYS`, `AUDIO_S32SYS` the format
output by `Kit_FindAudioFormat (Kit_FindAVSampleFormat f)` is `f`, and for `s`
among U8, S16, S32, `Kit_FindAVSampleFormat` of the format output by
`Kit_FindAudioFormat s` is `s`. -/
theorem sample_format_roundtrip :
    (∀ f : Nat, f = AUDIO_U8 ∨ f = AUDIO_S16SYS ∨ f = AUDIO_S32SYS →
      (Kit_FindAudioFormat (Kit_FindAVSampleFormat (f : Int))).format = f) ∧
    (∀ s : AVSampleFormat,
      s = .AV_SAMPLE_FMT_U8 ∨ s = .AV_SAMPLE_FMT_S16 ∨ s = .AV_SAMPLE_FMT_S32 →
      Kit_FindAVSampleFormat ((Kit_FindAudioFormat s).format : Int) = s) := by
  constructor
  · intro f hf
    rcases hf with h | h | h <;> subst h <;> decide
  · intro s hs
    rcases hs with h | h | h <;> subst h <;> decide

/-- Witness of C15: `AUDIO_S32SYS` and the sample format S16. -/
theorem sample_format_roundtrip_witness :
    (Kit_FindAudioFormat (Kit_FindAVSampleFormat (AUDIO_S32SYS : Int))).format = AUDIO_S32SYS ∧
    Kit_FindAVSampleFormat ((Kit_FindAudioFormat .AV_SAMPLE_FMT_S16).format : Int)
      = .AV_SAMPLE_FMT_S16 :=
  ⟨sample_format_roundtrip.1 AUDIO_S32SYS (Or.inr (Or.inr rfl)),
   sample_format_roundtrip.2 .AV_SAMPLE_FMT_S16 (Or.inr (Or.inl rfl))⟩

/-- C16: for every `AVSampleFormat` `s`, `Kit_FindAudioFormat` outputs
`(1, false, AUDIO_U8)` for U8, `(2, true, AUDIO_S16SYS)` for S16,
`(4, true, AUDIO_S32SYS)` for S32 and `(2, true, AUDIO_S16SYS)` for every other
`s`; in every case `bytes` is the byte width of the chosen host format
(`8 * bytes` is its `SDL_AUDIO_BITSIZE`). -/
theorem find_audio_format_table (s : AVSampleFormat) :
    (s = .AV_SAMPLE_FMT_U8 →
      Kit_FindAudioFormat s = { bytes := 1, is_signed := false, format := AUDIO_U8 }) ∧
    (s = .AV_SAMPLE_FMT_S16 →
      Kit_FindAudioFormat s = { bytes := 2, is_signed := true, format := AUDIO_S16SYS }) ∧
    (s = .AV_SAMPLE_FMT_S32 →
      Kit_FindAudioFormat s = { bytes := 4, is_signed := true, format := AUDIO_S32SYS }) ∧
    (¬ (s = .AV_SAMPLE_FMT_U8 ∨ s = .AV_SAMPLE_FMT_S16 ∨ s = .AV_SAMPLE_FMT_S32) →
      Kit_FindAudioFormat s = { bytes := 2, is_signed := true, format := AUDIO_S16SYS }) ∧
    8 * (Kit_FindAudioFormat s).bytes
      = (SDL_AUDIO_BITSIZE (Kit_FindAudioFormat s).format : Int) := by
  cases s <;> simp [Kit_FindAudioFormat] <;> decide

/-- Witness of C16: the sample format U8, and a format the table does not name
(`other 3`, such as float). -/
theorem find_audio_format_table_witness :
    Kit_FindAudioFormat .AV_SAMPLE_FMT_U8
      = { bytes := 1, is_signed := false, format := AUDIO_U8 } ∧
    Kit_FindAudioFormat (.other 3)
      = { bytes := 2, is_signed := true, format := AUDIO_S16SYS } :=
  ⟨(find_audio_format_table .AV_SAMPLE_FMT_U8).1 rfl,
   (find_audio_format_table (.other 3)).2.2.2.1 (by decide)⟩

/-! ## Theorems: construction -/

/-- C17: `Kit_CreateDecoderThread` called with a stream index that is out of
range (`stream_index ≥ nb_streams`) returns NULL and records the error message
"Invalid stream index #n"; the resources held are exactly those held before
the call, so no worker struct, codec context, queue, lock or thread was
created. -/
theorem create_decoder_thread_rejects_bad_index {α L : Type} (env : CreateEnv) (w : World)
    (src : Kit_Source) (stream_index : Int) (inbuffer_size outbuffer_size : Nat) (loc : L)
    (h : stream_index ≥ (src.format_ctx.nb_streams : Int)) :
    (Kit_CreateDecoderThread env w src stream_index inbuffer_size outbuffer_size loc :
        Option (Kit_DecoderThread α L) × World)
      = (none, { live := w.live,
                 error := some ("Invalid stream index #" ++ toString stream_index) }) := by
  unfold Kit_CreateDecoderThread
  simp only [if_pos h, Kit_SetError]

/-- Witness of C17: stream index 3 of a container with three streams, in a
world that holds nothing. -/
theorem create_decoder_thread_rejects_bad_index_witness :
    (Kit_CreateDecoderThread sampleCreateEnv emptyWorld subtitleSource 3 2 2 () :
        Option (Kit_DecoderThread Kit_VideoPacket Unit) × World)
      = (none, { live := [], error := some "Invalid stream index #3" }) :=
  create_decoder_thread_rejects_bad_index sampleCreateEnv emptyWorld subtitleSource 3 2 2 ()
    (by decide)

/-- The demuxer that `Kit_CreateDemuxThread` returns holds the three thread
pointers it was given. -/
lemma create_demux_thread_keeps_pointers (demux_ok thread_ok : Bool) (sdl_error : String)
    (w : World) (src : Kit_Source) (v : Option VideoThread) (a : Option AudioThread)
    (s : Option SubtitleThread) (d : Kit_DemuxThread)
    (h : (Kit_CreateDemuxThread demux_ok thread_ok sdl_error w src v a s).1 = some d) :
    d.video_thread = v ∧ d.audio_thread = a ∧ d.subtitle_thread = s := by
  unfold Kit_CreateDemuxThread at h
  split_ifs at h
  simp only [Option.some.injEq] at h
  subst h
  exact ⟨rfl, rfl, rfl⟩

/-- C19: whenever `Kit_CreatePlayer` succeeds, whatever the subtitle stream
index of the source, the subtitle slot of the player is NULL and the demuxer
of the player was given no subtitle worker; and `Kit_GetSubtitleData` returns
0 for every player, so for every state and every subtitle stream index. -/
theorem create_player_has_no_subtitle_worker (env : PlayerEnv) (w w1 : World)
    (src : Kit_Source) (player : Kit_Player)
    (h : Kit_CreatePlayer env w src = (some player, w1)) :
    player.subtitle_thread = none ∧
    (∃ d : Kit_DemuxThread, player.demux_thread = some d ∧ d.subtitle_thread = none) ∧
    (∀ p : Kit_Player, (Kit_GetSubtitleData p).ret = 0) := by
  have hsub : ∀ p : Kit_Player, (Kit_GetSubtitleData p).ret = 0 := by
    intro p
    unfold Kit_GetSubtitleData
    split_ifs <;> rfl
  unfold Kit_CreatePlayer at h
  by_cases hp : env.player_ok = false
  · rw [if_pos hp] at h
    simp at h
  · rw [if_neg hp] at h
    dsimp only at h
    generalize (if src.astream_idx > -1 then
      Kit_CreateAudioDecoderThread env.audio (w.acquire .player_struct) src src.astream_idx
      else (none, w.acquire .player_struct)) = a at h
    generalize (if src.vstream_idx > -1 then
      Kit_CreateVideoDecoderThread env.video a.2 src src.vstream_idx
      else (none, a.2)) = v at h
    generalize hd : Kit_CreateDemuxThread env.demux_ok env.demux_thread_ok env.sdl_error
      v.2 src v.1 a.1 none = d at h
    split_ifs at h with h1 h2 h3
    · simp at h
    · simp at h
    · simp at h
    · simp only [Prod.mk.injEq, Option.some.injEq] at h
      obtain ⟨hpl, _⟩ := h
      subst hpl
      obtain ⟨dm, hdm⟩ := Option.ne_none_iff_exists'.mp h3
      have hkeep := create_demux_thread_keeps_pointers env.demux_ok env.demux_thread_ok
        env.sdl_error v.2 src v.1 a.1 none dm (by rw [hd]; exact hdm)
      exact ⟨rfl, ⟨dm, hdm, hkeep.2.2⟩, hsub⟩

/-- Witness of C19: a source with a subtitle stream selected at index 2 and
answers under which every creation call succeeds. -/
theorem create_player_has_no_subtitle_worker_witness :
    subtitleSource.sstream_idx = 2 ∧
    ∃ (player : Kit_Player) (w1 : World),
      Kit_CreatePlayer samplePlayerEnv emptyWorld subtitleSource = (some player, w1) ∧
      player.subtitle_thread = none ∧
      (∃ d : Kit_DemuxThread, player.demux_thread = some d ∧ d.subtitle_thread = none) ∧
      (∀ p : Kit_Player, (Kit_GetSubtitleData p).ret = 0) :=
  ⟨rfl,
   (Kit_CreatePlayer samplePlayerEnv emptyWorld subtitleSource).1.get rfl,
   (Kit_CreatePlayer samplePlayerEnv emptyWorld subtitleSource).2,
   rfl,
   create_player_has_no_subtitle_worker samplePlayerEnv emptyWorld
     (Kit_CreatePlayer samplePlayerEnv emptyWorld subtitleSource).2 subtitleSource
     ((Kit_CreatePlayer samplePlayerEnv emptyWorld subtitleSource).1.get rfl) rfl⟩

/-! ## Theorems: the decoder worker loop -/

/-- In one pass through the loop body the handler is left out exactly when the
second read of the state is not `KIT_DECTHREAD_RUNNING`. -/
lemma workerIteration_handler_iff {α L : Type}
    (handler_cb : Kit_DecoderThread α L → Int × Kit_DecoderThread α L)
    (ext1 ext2 : Option Kit_DecoderThreadStatus) (thread : Kit_DecoderThread α L) :
    (workerIteration handler_cb ext1 ext2 thread).1.handler_ret = none ↔
      (workerIteration handler_cb ext1 ext2 thread).1.state_read
        ≠ .KIT_DECTHREAD_RUNNING := by
  have key : ∀ (t3 : Kit_DecoderThread α L) (a : Kit_DecoderThreadStatus) (b : Bool),
      (if t3.state ≠ .KIT_DECTHREAD_RUNNING then
          (({ first_read := a, flushed := b, state_read := t3.state,
              handler_ret := none } : WorkerIteration), t3)
        else
          (({ first_read := a, flushed := b, state_read := t3.state,
              handler_ret := some (handler_cb t3).1 } : WorkerIteration),
            (handler_cb t3).2)).1.handler_ret = none ↔
      (if t3.state ≠ .KIT_DECTHREAD_RUNNING then
          (({ first_read := a, flushed := b, state_read := t3.state,
              handler_ret := none } : WorkerIteration), t3)
        else
          (({ first_read := a, flushed := b, state_read := t3.state,
              handler_ret := some (handler_cb t3).1 } : WorkerIteration),
            (handler_cb t3).2)).1.state_read ≠ .KIT_DECTHREAD_RUNNING := by
    intro t3 a b
    by_cases h : t3.state ≠ .KIT_DECTHREAD_RUNNING
    · rw [if_pos h]
      exact ⟨fun _ => h, fun _ => rfl⟩
    · rw [if_neg h]
      exact ⟨fun hn => by simp at hn, fun hn => absurd hn h⟩
  exact key _ _ _

/-- A one-element list splits around an element in one way only. -/
lemma singleton_split {β : Type} (x it : β) (pre post : List β)
    (h : [x] = pre ++ it :: post) : pre = [] ∧ it = x ∧ post = [] := by
  cases pre with
  | nil =>
    simp only [List.nil_append, List.cons.injEq] at h
    exact ⟨rfl, h.1.symm, h.2.symm⟩
  | cons a l =>
    simp at h

/-- Every pass of a run obeys the rule of the loop body, and a pass whose
handler did not return 0 (or was not called) is the last one, after which the
function has returned. -/
lemma decoderThread_trace {α L : Type}
    (handler_cb : Kit_DecoderThread α L → Int × Kit_DecoderThread α L)
    (ext : Nat → Option Kit_DecoderThreadStatus × Option Kit_DecoderThreadStatus) :
    ∀ (fuel i : Nat) (thread : Kit_DecoderThread α L)
      (pre : List WorkerIteration) (it : WorkerIteration) (post : List WorkerIteration),
      (_DecoderThread handler_cb ext fuel i thread).trace = pre ++ it :: post →
      (it.handler_ret = none ↔ it.state_read ≠ .KIT_DECTHREAD_RUNNING) ∧
      (it.handler_ret ≠ some 0 →
        post = [] ∧ (_DecoderThread handler_cb ext fuel i thread).returned = true) := by
  intro fuel
  induction fuel with
  | zero =>
    intro i thread pre it post h
    simp [_DecoderThread] at h
  | succ n ih =>
    intro i thread pre it post h
    have hit := workerIteration_handler_iff handler_cb (ext i).1 (ext i).2 thread
    rw [_DecoderThread] at h ⊢
    simp only at h ⊢
    cases hr : (workerIteration handler_cb (ext i).1 (ext i).2 thread).1.handler_ret with
    | none =>
      rw [hr] at h
      simp only at h ⊢
      obtain ⟨_, hit2, hpost⟩ := singleton_split _ _ _ _ h
      subst hit2
      exact ⟨hit, fun _ => ⟨hpost, by simp⟩⟩
    | some ret =>
      rw [hr] at h
      simp only at h ⊢
      by_cases hret : ret ≠ 0
      · rw [if_pos hret] at h ⊢
        obtain ⟨_, hit2, hpost⟩ := singleton_split _ _ _ _ h
        subst hit2
        exact ⟨hit, fun _ => ⟨hpost, by simp⟩⟩
      · rw [if_neg hret] at h ⊢
        simp only [ne_eq, not_not] at hret
        subst hret
        cases pre with
        | nil =>
          simp only [List.nil_append, List.cons.injEq] at h
          obtain ⟨hit2, _⟩ := h
          subst hit2
          exact ⟨hit, fun hne => absurd hr hne⟩
        | cons a l =>
          simp only [List.cons_append, List.cons.injEq] at h
          exact ih (i + 1) _ l it post h.2

/-- C21: in every run of the worker loop, whatever other threads store in the
state atom, the handler is called in a pass only if the state read in that
pass is `running`; a pass in which the handler returned non-zero is the last
one and the function returns after it; and a pass that reads `closing` or
`closed` calls no handler, is the last one, and the function returns after
it. -/
theorem worker_loop_handler_discipline {α L : Type}
    (handler_cb : Kit_DecoderThread α L → Int × Kit_DecoderThread α L)
    (ext : Nat → Option Kit_DecoderThreadStatus × Option Kit_DecoderThreadStatus)
    (fuel i : Nat) (thread : Kit_DecoderThread α L)
    (pre : List WorkerIteration) (it : WorkerIteration) (post : List WorkerIteration)
    (h : (_DecoderThread handler_cb ext fuel i thread).trace = pre ++ it :: post) :
    (it.handler_ret ≠ none → it.state_read = .KIT_DECTHREAD_RUNNING) ∧
    ((∃ r : Int, it.handler_ret = some r ∧ r ≠ 0) →
      post = [] ∧ (_DecoderThread handler_cb ext fuel i thread).returned = true) ∧
    (it.state_read = .KIT_DECTHREAD_CLOSING ∨ it.state_read = .KIT_DECTHREAD_CLOSED →
      it.handler_ret = none ∧ post = [] ∧
      (_DecoderThread handler_cb ext fuel i thread).returned = true) := by
  obtain ⟨hiff, hlast⟩ := decoderThread_trace handler_cb ext fuel i thread pre it post h
  refine ⟨?_, ?_, ?_⟩
  · intro hne
    by_contra hs
    exact hne (hiff.mpr hs)
  · rintro ⟨r, hr, hr0⟩
    apply hlast
    rw [hr]
    intro h0
    exact hr0 (Option.some.inj h0)
  · intro hs
    have hnone : it.handler_ret = none := by
      apply hiff.mpr
      rcases hs with hs | hs <;> rw [hs] <;> decide
    refine ⟨hnone, ?_⟩
    apply hlast
    rw [hnone]
    simp

/-- Witness of C21: a running worker with one input packet; the handler
returns 0 in the first pass and 1 in the second, which is the last. -/
theorem worker_loop_handler_discipline_witness :
    (_DecoderThread sampleHandler noExternalStore 5 0
        (sampleWorker .KIT_DECTHREAD_RUNNING)).trace
      = [{ first_read := .KIT_DECTHREAD_RUNNING, flushed := false,
           state_read := .KIT_DECTHREAD_RUNNING, handler_ret := some 0 },
         { first_read := .KIT_DECTHREAD_RUNNING, flushed := false,
           state_read := .KIT_DECTHREAD_RUNNING, handler_ret := some 1 }] ∧
    (_DecoderThread sampleHandler noExternalStore 5 0
        (sampleWorker .KIT_DECTHREAD_RUNNING)).returned = true :=
  ⟨rfl,
   ((worker_loop_handler_discipline sampleHandler noExternalStore 5 0
      (sampleWorker .KIT_DECTHREAD_RUNNING)
      [{ first_read := .KIT_DECTHREAD_RUNNING, flushed := false,
         state_read := .KIT_DECTHREAD_RUNNING, handler_ret := some 0 }]
      { first_read := .KIT_DECTHREAD_RUNNING, flushed := false,
        state_read := .KIT_DECTHREAD_RUNNING, handler_ret := some 1 }
      [] rfl).2.1 ⟨1, rfl, by decide⟩).2⟩

/-- C22: a pass through the loop body that starts with the state `flushing`,
with no store by another thread, clears the input and the output queue, stores
`running`, and then calls the handler in that same pass: the handler receives
the thread with both queues at 0 items and the state `running`. -/
theorem flushing_pass_clears_then_calls_handler {α L : Type}
    (handler_cb : Kit_DecoderThread α L → Int × Kit_DecoderThread α L)
    (thread : Kit_DecoderThread α L) (h : thread.state = .KIT_DECTHREAD_FLUSHING) :
    workerIteration handler_cb none none thread
      = ({ first_read := .KIT_DECTHREAD_FLUSHING, flushed := true,
           state_read := .KIT_DECTHREAD_RUNNING,
           handler_ret := some (handler_cb
             { thread with input := { thread.input with items := [] },
                           output := { thread.output with items := [] },
                           state := .KIT_DECTHREAD_RUNNING }).1 },
         (handler_cb
           { thread with input := { thread.input with items := [] },
                         output := { thread.output with items := [] },
                         state := .KIT_DECTHREAD_RUNNING }).2) := by
  unfold workerIteration
  simp [externalStore, h, Kit_ClearBuffer]

/-- Witness of C22: a flushing worker with one input packet and one output
frame; the handler finds the input queue empty and returns 1. -/
theorem flushing_pass_clears_then_calls_handler_witness :
    workerIteration sampleHandler none none (sampleWorker .KIT_DECTHREAD_FLUSHING)
      = ({ first_read := .KIT_DECTHREAD_FLUSHING, flushed := true,
           state_read := .KIT_DECTHREAD_RUNNING, handler_ret := some 1 },
         { sampleVideoThread [] with input := { size := 2, items := [] } }) :=
  (flushing_pass_clears_then_calls_handler sampleHandler
    (sampleWorker .KIT_DECTHREAD_FLUSHING) rfl).trans rfl

/-- C23 (as stated, refuted): a worker in state `closing`, run without any
store by another thread, leaves its loop at once and the function returns, and
the state atom then holds `closing`, not `closed`. -/
theorem worker_loop_exit_is_not_closed :
    (_DecoderThread sampleHandler noExternalStore 5 0
        (sampleWorker .KIT_DECTHREAD_CLOSING)).returned = true ∧
    (_DecoderThread sampleHandler noExternalStore 5 0
        (sampleWorker .KIT_DECTHREAD_CLOSING)).thread.state = .KIT_DECTHREAD_CLOSING ∧
    (_DecoderThread sampleHandler noExternalStore 5 0
        (sampleWorker .KIT_DECTHREAD_CLOSING)).thread.state ≠ .KIT_DECTHREAD_CLOSED :=
  ⟨rfl, rfl, by decide⟩

/-- A store of a value other than `closed` leaves a state other than `closed`
so. -/
lemma externalStore_not_closed {α L : Type} (write : Option Kit_DecoderThreadStatus)
    (thread : Kit_DecoderThread α L) (hw : write ≠ some .KIT_DECTHREAD_CLOSED)
    (h : thread.state ≠ .KIT_DECTHREAD_CLOSED) :
    (externalStore write thread).state ≠ .KIT_DECTHREAD_CLOSED := by
  cases write with
  | none => exact h
  | some s =>
    intro hs
    exact hw (congrArg some hs)

/-- One pass of the worker loop never makes the state `closed`: the only store
of the pass itself is the one of `running` after a flush. -/
lemma workerIteration_not_closed {α L : Type}
    (handler_cb : Kit_DecoderThread α L → Int × Kit_DecoderThread α L)
    (ext1 ext2 : Option Kit_DecoderThreadStatus) (thread : Kit_DecoderThread α L)
    (hh : ∀ t, (handler_cb t).2.state = t.state)
    (h1 : ext1 ≠ some .KIT_DECTHREAD_CLOSED) (h2 : ext2 ≠ some .KIT_DECTHREAD_CLOSED)
    (h : thread.state ≠ .KIT_DECTHREAD_CLOSED) :
    (workerIteration handler_cb ext1 ext2 thread).2.state ≠ .KIT_DECTHREAD_CLOSED := by
  have ht1 := externalStore_not_closed ext1 thread h1 h
  have key : ∀ t2 : Kit_DecoderThread α L, t2.state ≠ .KIT_DECTHREAD_CLOSED →
      ∀ (a b : WorkerIteration),
      (if (externalStore ext2 t2).state ≠ .KIT_DECTHREAD_RUNNING then
          (a, externalStore ext2 t2)
        else (b, (handler_cb (externalStore ext2 t2)).2)).2.state
        ≠ .KIT_DECTHREAD_CLOSED := by
    intro t2 ht2 a b
    have ht3 := externalStore_not_closed ext2 t2 h2 ht2
    by_cases hc : (externalStore ext2 t2).state ≠ .KIT_DECTHREAD_RUNNING
    · rw [if_pos hc]
      exact ht3
    · rw [if_neg hc]
      simp only
      rw [hh]
      exact ht3
  unfold workerIteration
  by_cases hf : (externalStore ext1 thread).state = .KIT_DECTHREAD_FLUSHING
  · simp only [if_pos hf]
    exact key _ (by simp) _ _
  · simp only [if_neg hf]
    exact key _ ht1 _ _

/-- The state of a worker that was started is never `closed`, after any number
of passes and after the return of the loop, as long as nobody else stores
`closed`. -/
lemma decoderThread_not_closed {α L : Type}
    (handler_cb : Kit_DecoderThread α L → Int × Kit_DecoderThread α L)
    (ext : Nat → Option Kit_DecoderThreadStatus × Option Kit_DecoderThreadStatus)
    (hh : ∀ t, (handler_cb t).2.state = t.state)
    (hext : ∀ j, (ext j).1 ≠ some .KIT_DECTHREAD_CLOSED ∧
      (ext j).2 ≠ some .KIT_DECTHREAD_CLOSED) :
    ∀ (fuel i : Nat) (thread : Kit_DecoderThread α L),
      thread.state ≠ .KIT_DECTHREAD_CLOSED →
      (_DecoderThread handler_cb ext fuel i thread).thread.state
        ≠ .KIT_DECTHREAD_CLOSED := by
  intro fuel
  induction fuel with
  | zero =>
    intro i thread h
    exact h
  | succ n ih =>
    intro i thread h
    have hstep := workerIteration_not_closed handler_cb (ext i).1 (ext i).2 thread hh
      (hext i).1 (hext i).2 h
    rw [_DecoderThread]
    simp only
    cases hr : (workerIteration handler_cb (ext i).1 (ext i).2 thread).1.handler_ret with
    | none => exact hstep
    | some ret =>
      simp only
      by_cases hret : ret ≠ 0
      · rw [if_pos hret]
        exact hstep
      · rw [if_neg hret]
        exact ih (i + 1) _ hstep

/-- C23 (amended): the state atom of a worker that was started never holds
`closed`. In every run of `_DecoderThread` that starts in a state other than
`closed`, with a handler that does not store to the state atom and no other
thread storing `closed`, the state is not `closed` after any number of passes
nor after the return of the loop. And when `Kit_FreeDecoderThread` has stored
`closing` and nobody stores to the state during the worker's next pass, that
pass ends the loop without a handler call, the function returns, and the state
atom holds `closing`. -/
theorem worker_state_never_closed {α L : Type}
    (handler_cb : Kit_DecoderThread α L → Int × Kit_DecoderThread α L)
    (ext : Nat → Option Kit_DecoderThreadStatus × Option Kit_DecoderThreadStatus)
    (fuel i : Nat) (thread : Kit_DecoderThread α L)
    (hh : ∀ t, (handler_cb t).2.state = t.state)
    (hext : ∀ j, (ext j).1 ≠ some .KIT_DECTHREAD_CLOSED ∧
      (ext j).2 ≠ some .KIT_DECTHREAD_CLOSED)
    (hstart : thread.state ≠ .KIT_DECTHREAD_CLOSED) :
    (_DecoderThread handler_cb ext fuel i thread).thread.state ≠ .KIT_DECTHREAD_CLOSED ∧
    (closeAndJoin handler_cb ext fuel i thread).thread.state ≠ .KIT_DECTHREAD_CLOSED ∧
    (ext i = (none, none) →
      (closeAndJoin handler_cb ext (fuel + 1) i thread).returned = true ∧
      (closeAndJoin handler_cb ext (fuel + 1) i thread).thread
        = { thread with state := .KIT_DECTHREAD_CLOSING } ∧
      (closeAndJoin handler_cb ext (fuel + 1) i thread).trace
        = [{ first_read := .KIT_DECTHREAD_CLOSING, flushed := false,
             state_read := .KIT_DECTHREAD_CLOSING, handler_ret := none }]) := by
  refine ⟨decoderThread_not_closed handler_cb ext hh hext fuel i thread hstart, ?_, ?_⟩
  · unfold closeAndJoin
    exact decoderThread_not_closed handler_cb ext hh hext fuel i _ (by simp [externalStore])
  · intro hquiet
    have hstep : workerIteration handler_cb (ext i).1 (ext i).2
        (externalStore (some .KIT_DECTHREAD_CLOSING) thread)
        = ({ first_read := .KIT_DECTHREAD_CLOSING, flushed := false,
             state_read := .KIT_DECTHREAD_CLOSING, handler_ret := none },
           { thread with state := .KIT_DECTHREAD_CLOSING }) := by
      rw [hquiet]
      unfold workerIteration
      simp [externalStore]
    unfold closeAndJoin
    rw [_DecoderThread]
    simp only [hstep]
    simp

/-- Witness of C23 (amended): the running sample worker, whose handler takes
packets off the input queue. After its run the state is `running`, not
`closed`; after the store of `closing` the next pass ends the loop with the
state `closing`. -/
theorem worker_state_never_closed_witness :
    (_DecoderThread sampleHandler noExternalStore 5 0
        (sampleWorker .KIT_DECTHREAD_RUNNING)).thread.state ≠ .KIT_DECTHREAD_CLOSED ∧
    (closeAndJoin sampleHandler noExternalStore 5 0
        (sampleWorker .KIT_DECTHREAD_RUNNING)).returned = true ∧
    (closeAndJoin sampleHandler noExternalStore 5 0
        (sampleWorker .KIT_DECTHREAD_RUNNING)).thread = sampleWorker .KIT_DECTHREAD_CLOSING ∧
    (closeAndJoin sampleHandler noExternalStore 5 0
        (sampleWorker .KIT_DECTHREAD_RUNNING)).trace
      = [{ first_read := .KIT_DECTHREAD_CLOSING, flushed := false,
           state_read := .KIT_DECTHREAD_CLOSING, handler_ret := none }] :=
  have hh : ∀ t : VideoThread, (sampleHandler t).2.state = t.state := by
    intro t
    unfold sampleHandler
    split <;> rfl
  have hext : ∀ j, (noExternalStore j).1 ≠ some .KIT_DECTHREAD_CLOSED ∧
      (noExternalStore j).2 ≠ some .KIT_DECTHREAD_CLOSED :=
    fun _ => ⟨by simp [noExternalStore], by simp [noExternalStore]⟩
  have h := worker_state_never_closed sampleHandler noExternalStore 4 0
    (sampleWorker .KIT_DECTHREAD_RUNNING) hh hext (by decide)
  ⟨(worker_state_never_closed sampleHandler noExternalStore 5 0
      (sampleWorker .KIT_DECTHREAD_RUNNING) hh hext (by decide)).1,
   (h.2.2 rfl).1, (h.2.2 rfl).2.1, (h.2.2 rfl).2.2⟩

/-! ## Theorems: the demuxer -/

/-- The test of `_DemuxThread` fails exactly when the thread is NULL or has
another stream index. -/
lemma attachedFor_eq_none {α L : Type} (thread : Option (Kit_DecoderThread α L))
    (packet : AVPacket)
    (h : ∀ t, thread = some t → packet.stream_index ≠ t.stream_index) :
    attachedFor thread packet = none := by
  cases thread with
  | none => rfl
  | some t =>
    simp only [attachedFor]
    rw [if_neg (h t rfl)]

/-- The test of `_DemuxThread` holds for an attached thread with the stream
index of the packet. -/
lemma attachedFor_eq_some {α L : Type} (t : Kit_DecoderThread α L) (packet : AVPacket)
    (h : packet.stream_index = t.stream_index) :
    attachedFor (some t) packet = some t := by
  simp only [attachedFor]
  rw [if_pos h]

/-- C24: for a packet that a running demuxer has read, `Kit_ThreadWriteInput`
is called on at most one decoder thread, the first of video, audio, subtitle
(in that order) that is attached and has the stream index of the packet, and
the other two threads are left as they are; a packet that matches no attached
thread is written to no queue and the demuxer with its threads is unchanged. -/
theorem demux_routes_to_first_match (packet : AVPacket)
    (wake : Kit_Buffer AVPacket → Kit_Buffer AVPacket) (thread : Kit_DemuxThread)
    (hrun : thread.state = .KIT_DEMUXTHREAD_RUNNING) :
    (∀ v, thread.video_thread = some v → packet.stream_index = v.stream_index →
      demuxIteration (some packet) wake thread
        = { thread := { thread with
                        video_thread := some (Kit_ThreadWriteInput v packet wake).2 },
            running := true, mallocs := 1, frees := 0,
            write_ret := some (Kit_ThreadWriteInput v packet wake).1 }) ∧
    ((∀ v, thread.video_thread = some v → packet.stream_index ≠ v.stream_index) →
      ∀ a, thread.audio_thread = some a → packet.stream_index = a.stream_index →
      demuxIteration (some packet) wake thread
        = { thread := { thread with
                        audio_thread := some (Kit_ThreadWriteInput a packet wake).2 },
            running := true, mallocs := 1, frees := 0,
            write_ret := some (Kit_ThreadWriteInput a packet wake).1 }) ∧
    ((∀ v, thread.video_thread = some v → packet.stream_index ≠ v.stream_index) →
      (∀ a, thread.audio_thread = some a → packet.stream_index ≠ a.stream_index) →
      ∀ s, thread.subtitle_thread = some s → packet.stream_index = s.stream_index →
      demuxIteration (some packet) wake thread
        = { thread := { thread with
                        subtitle_thread := some (Kit_ThreadWriteInput s packet wake).2 },
            running := true, mallocs := 1, frees := 0,
            write_ret := some (Kit_ThreadWriteInput s packet wake).1 }) ∧
    ((∀ v, thread.video_thread = some v → packet.stream_index ≠ v.stream_index) →
      (∀ a, thread.audio_thread = some a → packet.stream_index ≠ a.stream_index) →
      (∀ s, thread.subtitle_thread = some s → packet.stream_index ≠ s.stream_index) →
      demuxIteration (some packet) wake thread
        = { thread := thread, running := true, mallocs := 1, frees := 0,
            write_ret := none }) := by
  have hne : ¬ thread.state ≠ .KIT_DEMUXTHREAD_RUNNING := fun hn => hn hrun
  refine ⟨?_, ?_, ?_, ?_⟩
  · intro v hv hidx
    unfold demuxIteration
    rw [if_neg hne, hv]
    simp only [attachedFor_eq_some v packet hidx]
  · intro hv a ha hidx
    unfold demuxIteration
    rw [if_neg hne]
    simp only [attachedFor_eq_none _ packet hv]
    rw [ha]
    simp only [attachedFor_eq_some a packet hidx]
  · intro hv ha s hs hidx
    unfold demuxIteration
    rw [if_neg hne]
    simp only [attachedFor_eq_none _ packet hv, attachedFor_eq_none _ packet ha]
    rw [hs]
    simp only [attachedFor_eq_some s packet hidx]
  · intro hv ha hs
    unfold demuxIteration
    rw [if_neg hne]
    simp only [attachedFor_eq_none _ packet hv, attachedFor_eq_none _ packet ha,
      attachedFor_eq_none _ packet hs]

/-- Witness of C24: a packet of stream 1 goes to the audio thread, which is
the second in the order; the video thread (stream 0) is left alone. -/
theorem demux_routes_to_first_match_witness :
    demuxIteration (some { stream_index := 1, size := 10 }) id sampleDemux
      = { thread := { sampleDemux with
                      audio_thread := some
                        { sampleAudioThread [] with
                          input := { size := 3,
                                     items := [{ stream_index := 1, size := 10 }] } } },
          running := true, mallocs := 1, frees := 0, write_ret := some 0 } :=
  ((demux_routes_to_first_match { stream_index := 1, size := 10 } id sampleDemux rfl).2.1
    (fun v hv => by
      have hv2 : sampleVideoThread [] = v := Option.some.inj hv
      rw [← hv2]
      decide)
    (sampleAudioThread []) rfl rfl).trans rfl

/-- C25 (the code at three failing inputs): in each of these passes the
demuxer allocates one packet and frees none, and no input queue holds a packet
more than before. First, the container read fails. Second, the packet belongs
to stream 2, for which no thread is attached. Third, the packet belongs to the
video stream, whose input queue is full and still full when the wait returns,
so that `Kit_ThreadWriteInput` returns 1. -/
theorem demux_loses_packets :
    (demuxIteration none id sampleDemux
      = { thread := sampleDemux, running := false, mallocs := 1, frees := 0,
          write_ret := none }) ∧
    (demuxIteration (some { stream_index := 2, size := 10 }) id sampleDemux
      = { thread := sampleDemux, running := true, mallocs := 1, frees := 0,
          write_ret := none }) ∧
    (demuxIteration (some { stream_index := 0, size := 10 }) id sampleDemuxFull
      = { thread := sampleDemuxFull, running := true, mallocs := 1, frees := 0,
          write_ret := some 1 }) ∧
    heldByInputs (demuxIteration (some { stream_index := 0, size := 10 }) id
      sampleDemuxFull).thread = heldByInputs sampleDemuxFull := by
  refine ⟨rfl, rfl, rfl, rfl⟩

/-! ## Theorems: the packet handlers -/

/-- Whenever the decode loop finishes: the return value is 1 if a decode call
returned a negative length and 0 otherwise, and the input packet is the one
packet passed to `_FreeAVPacket`, with no byte left when the result is 0. -/
lemma decodeLoop_result {α L φ : Type} (decode : Nat → AVPacket → DecodeResult φ)
    (mk : φ → ℚ → α) (wake : Nat → Kit_Buffer α → Kit_Buffer α) :
    ∀ (fuel k : Nat) (thread : Kit_DecoderThread α L) (packet : AVPacket)
      (h : HandlerResult α L),
      decodeLoop decode mk wake fuel k thread packet = some h →
      (h.ret ≠ 0 ↔ ∃ l ∈ h.lens, l < 0) ∧
      (h.ret = 0 ∨ h.ret = 1) ∧
      ∃ q : AVPacket, h.freed_input = [q] ∧ q.stream_index = packet.stream_index ∧
        q.dts = packet.dts ∧ (h.ret = 0 → q.size ≤ 0) := by
  intro fuel
  induction fuel with
  | zero =>
    intro k thread packet h hh
    rw [decodeLoop] at hh
    split_ifs at hh with hs
    simp only [Option.some.injEq] at hh
    subst hh
    exact ⟨by simp, Or.inl rfl, packet, rfl, rfl, rfl, fun _ => not_lt.mp hs⟩
  | succ n ih =>
    intro k thread packet h hh
    rw [decodeLoop] at hh
    by_cases hs : packet.size > 0
    · rw [if_pos hs] at hh
      simp only at hh
      by_cases hl : (decode k packet).len < 0
      · rw [if_pos hl] at hh
        simp only [Option.some.injEq] at hh
        subst hh
        refine ⟨?_, Or.inr rfl, packet, rfl, rfl, rfl, ?_⟩
        · simp only [ne_eq, one_ne_zero, not_false_eq_true, true_iff]
          exact ⟨_, List.mem_singleton.mpr rfl, hl⟩
        · intro h1
          exact absurd h1 one_ne_zero
      · rw [if_neg hl] at hh
        split at hh
        · simp at hh
        · rename_i h2 heq
          simp only [Option.some.injEq] at hh
          subst hh
          obtain ⟨hret, h01, q, hq, hidx, hdts, hsz⟩ := ih _ _ _ _ heq
          refine ⟨?_, h01, q, hq, hidx, hdts, hsz⟩
          simp only [List.mem_cons, exists_eq_or_imp]
          rw [hret]
          constructor
          · intro hex
            exact Or.inr hex
          · intro hex
            rcases hex with hneg | hex
            · exact absurd hneg hl
            · exact hex
    · rw [if_neg hs] at hh
      simp only [Option.some.injEq] at hh
      subst hh
      exact ⟨by simp, Or.inl rfl, packet, rfl, rfl, rfl, fun _ => not_lt.mp hs⟩

/-- When every decode call returns a length of at least 1, a budget of as many
passes as the packet has bytes finishes the decode loop: it ends with result 0
after at most that many decode calls. -/
lemma decodeLoop_terminates {α L φ : Type} (decode : Nat → AVPacket → DecodeResult φ)
    (mk : φ → ℚ → α) (wake : Nat → Kit_Buffer α → Kit_Buffer α)
    (hlen : ∀ (k : Nat) (p : AVPacket), 1 ≤ (decode k p).len) :
    ∀ (fuel k : Nat) (thread : Kit_DecoderThread α L) (packet : AVPacket),
      packet.size ≤ (fuel : Int) →
      ∃ h : HandlerResult α L, decodeLoop decode mk wake fuel k thread packet = some h ∧
        h.ret = 0 ∧ (h.lens.length : Int) ≤ max packet.size 0 := by
  intro fuel
  induction fuel with
  | zero =>
    intro k thread packet hsz
    have hs : ¬ packet.size > 0 := by
      simp only [Nat.cast_zero] at hsz
      exact not_lt.mpr hsz
    rw [decodeLoop, if_neg hs]
    exact ⟨_, rfl, rfl, by simp⟩
  | succ n ih =>
    intro k thread packet hsz
    rw [decodeLoop]
    by_cases hs : packet.size > 0
    · rw [if_pos hs]
      have hl := hlen k packet
      have hneg : ¬ (decode k packet).len < 0 := by omega
      simp only
      rw [if_neg hneg]
      have hsz2 : ({ packet with size := packet.size - (decode k packet).len } : AVPacket).size
          ≤ (n : Int) := by
        simp only
        push_cast at hsz
        omega
      obtain ⟨h, hh, hret, hcount⟩ := ih (k + 1)
        (if (decode k packet).frame_finished then
          Kit_ThreadWriteOutput thread
            (mk (decode k packet).payload
              (if packet.dts.isSome then (decode k packet).timestamp else 0)) (wake k)
        else (0, thread)).2
        { packet with size := packet.size - (decode k packet).len } hsz2
      rw [hh]
      refine ⟨_, rfl, hret, ?_⟩
      simp only [List.length_cons, Nat.cast_add, Nat.cast_one] at hcount ⊢
      have hmax : max packet.size 0 = packet.size := max_eq_left hs.le
      rw [hmax]
      rcases le_total (packet.size - (decode k packet).len) 0 with h0 | h0
      · rw [max_eq_right h0] at hcount
        omega
      · rw [max_eq_left h0] at hcount
        omega
    · rw [if_neg hs]
      exact ⟨_, rfl, rfl, by simp⟩

/-- A thread whose input queue is written back unchanged is the same thread. -/
lemma thread_input_eta {α L : Type} (thread : Kit_DecoderThread α L) :
    ({ thread with input := thread.input } : Kit_DecoderThread α L) = thread := by
  cases thread
  rfl

/-- The video handler on an empty input queue returns 0 and does nothing. -/
lemma handleVideoPacket_empty (fuel : Nat) (decode : Nat → AVPacket → DecodeResult Nat)
    (wake : Nat → Kit_Buffer Kit_VideoPacket → Kit_Buffer Kit_VideoPacket)
    (thread : VideoThread) (h : thread.input.items = []) :
    _HandleVideoPacket fuel decode wake thread
      = .done { ret := 0, thread := thread, lens := [], freed_input := [],
                freed_output := [] } := by
  unfold _HandleVideoPacket
  simp [Kit_ThreadReadInput, _ThreadRead, Kit_ReadBuffer, h, thread_input_eta]

/-- The video handler on a non-empty input queue reads the head packet and
runs the decode loop on it. -/
lemma handleVideoPacket_cons (fuel : Nat) (decode : Nat → AVPacket → DecodeResult Nat)
    (wake : Nat → Kit_Buffer Kit_VideoPacket → Kit_Buffer Kit_VideoPacket)
    (thread : VideoThread) (p : AVPacket) (rest : List AVPacket)
    (h : thread.input.items = p :: rest) :
    _HandleVideoPacket fuel decode wake thread
      = match decodeLoop decode _CreateVideoPacket wake fuel 0
          { thread with input := { thread.input with items := rest } } p with
        | none => .out_of_fuel
        | some r => .done r := by
  unfold _HandleVideoPacket
  simp [Kit_ThreadReadInput, _ThreadRead, Kit_ReadBuffer, h]

/-- The audio handler on an empty input queue returns 0 and does nothing. -/
lemma handleAudioPacket_empty (fuel : Nat)
    (decode : Nat → AVPacket → DecodeResult (List Nat))
    (wake : Nat → Kit_Buffer Kit_AudioPacket → Kit_Buffer Kit_AudioPacket)
    (thread : AudioThread) (h : thread.input.items = []) :
    _HandleAudioPacket fuel decode wake thread
      = .done { ret := 0, thread := thread, lens := [], freed_input := [],
                freed_output := [] } := by
  unfold _HandleAudioPacket
  simp [Kit_ThreadReadInput, _ThreadRead, Kit_ReadBuffer, h, thread_input_eta]

/-- The audio handler on a non-empty input queue reads the head packet and
runs the decode loop on it. -/
lemma handleAudioPacket_cons (fuel : Nat)
    (decode : Nat → AVPacket → DecodeResult (List Nat))
    (wake : Nat → Kit_Buffer Kit_AudioPacket → Kit_Buffer Kit_AudioPacket)
    (thread : AudioThread) (p : AVPacket) (rest : List AVPacket)
    (h : thread.input.items = p :: rest) :
    _HandleAudioPacket fuel decode wake thread
      = match decodeLoop decode _CreateAudioPacket wake fuel 0
          { thread with input := { thread.input with items := rest } } p with
        | none => .out_of_fuel
        | some r => .done r := by
  unfold _HandleAudioPacket
  simp [Kit_ThreadReadInput, _ThreadRead, Kit_ReadBuffer, h]

/-- When no decode call returns the length 0, a budget of as many passes as the
packet has bytes finishes the decode loop. -/
lemma decodeLoop_returns {α L φ : Type} (decode : Nat → AVPacket → DecodeResult φ)
    (mk : φ → ℚ → α) (wake : Nat → Kit_Buffer α → Kit_Buffer α)
    (hlen : ∀ (k : Nat) (p : AVPacket), (decode k p).len ≠ 0) :
    ∀ (fuel k : Nat) (thread : Kit_DecoderThread α L) (packet : AVPacket),
      packet.size ≤ (fuel : Int) →
      ∃ h : HandlerResult α L, decodeLoop decode mk wake fuel k thread packet = some h := by
  intro fuel
  induction fuel with
  | zero =>
    intro k thread packet hsz
    have hs : ¬ packet.size > 0 := by
      simp only [Nat.cast_zero] at hsz
      exact not_lt.mpr hsz
    rw [decodeLoop, if_neg hs]
    exact ⟨_, rfl⟩
  | succ n ih =>
    intro k thread packet hsz
    rw [decodeLoop]
    by_cases hs : packet.size > 0
    · rw [if_pos hs]
      simp only
      by_cases hneg : (decode k packet).len < 0
      · rw [if_pos hneg]
        exact ⟨_, rfl⟩
      · rw [if_neg hneg]
        have hl := hlen k packet
        have hsz2 : ({ packet with size := packet.size - (decode k packet).len } : AVPacket).size
            ≤ (n : Int) := by
          simp only
          push_cast at hsz
          omega
        obtain ⟨h, hh⟩ := ih (k + 1)
          (if (decode k packet).frame_finished then
            Kit_ThreadWriteOutput thread
              (mk (decode k packet).payload
                (if packet.dts.isSome then (decode k packet).timestamp else 0)) (wake k)
          else (0, thread)).2
          { packet with size := packet.size - (decode k packet).len } hsz2
        rw [hh]
        exact ⟨_, rfl⟩
    · rw [if_neg hs]
      exact ⟨_, rfl⟩

/-- A decode call that returns a negative length on a packet with bytes left
ends the decode loop at once: result 1, the packet freed, nothing written. -/
lemma decodeLoop_negative {α L φ : Type} (decode : Nat → AVPacket → DecodeResult φ)
    (mk : φ → ℚ → α) (wake : Nat → Kit_Buffer α → Kit_Buffer α)
    (fuel k : Nat) (thread : Kit_DecoderThread α L) (packet : AVPacket)
    (hfuel : 0 < fuel) (hs : 0 < packet.size) (hneg : (decode k packet).len < 0) :
    decodeLoop decode mk wake fuel k thread packet
      = some { ret := 1, thread := thread, lens := [(decode k packet).len],
               freed_input := [packet], freed_output := [] } := by
  cases fuel with
  | zero => exact absurd hfuel (lt_irrefl 0)
  | succ n =>
    rw [decodeLoop, if_pos hs]
    simp only
    rw [if_pos hneg]

/-- C26: `_HandleVideoPacket` and `_HandleAudioPacket` return 0 on an empty
input queue, freeing nothing. Whenever they return after reading a packet, the
result is non-zero exactly when a decode call on that packet returned a
negative length, a result of 0 comes with no byte left in the packet, and the
packet read is the one packet passed to `_FreeAVPacket`. They do return, with
these properties, when no decode call answers with the length 0 and the
iteration budget is at least the size of the packet; and a first decode call
with a negative length on a packet with bytes left makes them return 1 at once,
with the packet freed and the output queue untouched. -/
theorem handlers_return_code_and_free_packet (fuel : Nat)
    (vdecode : Nat → AVPacket → DecodeResult Nat)
    (vwake : Nat → Kit_Buffer Kit_VideoPacket → Kit_Buffer Kit_VideoPacket)
    (vthread : VideoThread)
    (adecode : Nat → AVPacket → DecodeResult (List Nat))
    (awake : Nat → Kit_Buffer Kit_AudioPacket → Kit_Buffer Kit_AudioPacket)
    (athread : AudioThread) :
    (vthread.input.items = [] →
      _HandleVideoPacket fuel vdecode vwake vthread
        = .done { ret := 0, thread := vthread, lens := [], freed_input := [],
                  freed_output := [] }) ∧
    (∀ (p : AVPacket) (rest : List AVPacket) (r : HandlerResult Kit_VideoPacket Kit_VideoDecThread),
      vthread.input.items = p :: rest →
      _HandleVideoPacket fuel vdecode vwake vthread = .done r →
      (r.ret ≠ 0 ↔ ∃ l ∈ r.lens, l < 0) ∧
      ∃ q : AVPacket, r.freed_input = [q] ∧ q.stream_index = p.stream_index ∧
        q.dts = p.dts ∧ (r.ret = 0 → q.size ≤ 0)) ∧
    (∀ (p : AVPacket) (rest : List AVPacket),
      vthread.input.items = p :: rest → p.size ≤ (fuel : Int) →
      (∀ (k : Nat) (q : AVPacket), (vdecode k q).len ≠ 0) →
      ∃ r : HandlerResult Kit_VideoPacket Kit_VideoDecThread,
        _HandleVideoPacket fuel vdecode vwake vthread = .done r ∧
        (r.ret ≠ 0 ↔ ∃ l ∈ r.lens, l < 0) ∧
        ∃ q : AVPacket, r.freed_input = [q] ∧ q.stream_index = p.stream_index ∧
          q.dts = p.dts ∧ (r.ret = 0 → q.size ≤ 0)) ∧
    (∀ (p : AVPacket) (rest : List AVPacket),
      vthread.input.items = p :: rest → 0 < fuel → 0 < p.size → (vdecode 0 p).len < 0 →
      _HandleVideoPacket fuel vdecode vwake vthread
        = .done { ret := 1,
                  thread := { vthread with input := { vthread.input with items := rest } },
                  lens := [(vdecode 0 p).len], freed_input := [p], freed_output := [] }) ∧
    (athread.input.items = [] →
      _HandleAudioPacket fuel adecode awake athread
        = .done { ret := 0, thread := athread, lens := [], freed_input := [],
                  freed_output := [] }) ∧
    (∀ (p : AVPacket) (rest : List AVPacket) (r : HandlerResult Kit_AudioPacket Kit_AudioDecThread),
      athread.input.items = p :: rest →
      _HandleAudioPacket fuel adecode awake athread = .done r →
      (r.ret ≠ 0 ↔ ∃ l ∈ r.lens, l < 0) ∧
      ∃ q : AVPacket, r.freed_input = [q] ∧ q.stream_index = p.stream_index ∧
        q.dts = p.dts ∧ (r.ret = 0 → q.size ≤ 0)) ∧
    (∀ (p : AVPacket) (rest : List AVPacket),
      athread.input.items = p :: rest → p.size ≤ (fuel : Int) →
      (∀ (k : Nat) (q : AVPacket), (adecode k q).len ≠ 0) →
      ∃ r : HandlerResult Kit_AudioPacket Kit_AudioDecThread,
        _HandleAudioPacket fuel adecode awake athread = .done r ∧
        (r.ret ≠ 0 ↔ ∃ l ∈ r.lens, l < 0) ∧
        ∃ q : AVPacket, r.freed_input = [q] ∧ q.stream_index = p.stream_index ∧
          q.dts = p.dts ∧ (r.ret = 0 → q.size ≤ 0)) ∧
    (∀ (p : AVPacket) (rest : List AVPacket),
      athread.input.items = p :: rest → 0 < fuel → 0 < p.size → (adecode 0 p).len < 0 →
      _HandleAudioPacket fuel adecode awake athread
        = .done { ret := 1,
                  thread := { athread with input := { athread.input with items := rest } },
                  lens := [(adecode 0 p).len], freed_input := [p], freed_output := [] }) := by
  refine ⟨handleVideoPacket_empty fuel vdecode vwake vthread, ?_, ?_, ?_,
    handleAudioPacket_empty fuel adecode awake athread, ?_, ?_, ?_⟩
  · intro p rest r hq hr
    rw [handleVideoPacket_cons fuel vdecode vwake vthread p rest hq] at hr
    split at hr
    · simp at hr
    · rename_i h heq
      simp only [Outcome.done.injEq] at hr
      subst hr
      obtain ⟨h1, _, h3⟩ := decodeLoop_result _ _ _ _ _ _ _ _ heq
      exact ⟨h1, h3⟩
  · intro p rest hq hsz hlen
    obtain ⟨h, hh⟩ := decodeLoop_returns vdecode _CreateVideoPacket vwake hlen fuel 0
      { vthread with input := { vthread.input with items := rest } } p hsz
    obtain ⟨h1, _, h3⟩ := decodeLoop_result _ _ _ _ _ _ _ _ hh
    rw [handleVideoPacket_cons fuel vdecode vwake vthread p rest hq, hh]
    exact ⟨h, rfl, h1, h3⟩
  · intro p rest hq hfuel hs hneg
    rw [handleVideoPacket_cons fuel vdecode vwake vthread p rest hq,
      decodeLoop_negative vdecode _CreateVideoPacket vwake fuel 0 _ p hfuel hs hneg]
  · intro p rest r hq hr
    rw [handleAudioPacket_cons fuel adecode awake athread p rest hq] at hr
    split at hr
    · simp at hr
    · rename_i h heq
      simp only [Outcome.done.injEq] at hr
      subst hr
      obtain ⟨h1, _, h3⟩ := decodeLoop_result _ _ _ _ _ _ _ _ heq
      exact ⟨h1, h3⟩
  · intro p rest hq hsz hlen
    obtain ⟨h, hh⟩ := decodeLoop_returns adecode _CreateAudioPacket awake hlen fuel 0
      { athread with input := { athread.input with items := rest } } p hsz
    obtain ⟨h1, _, h3⟩ := decodeLoop_result _ _ _ _ _ _ _ _ hh
    rw [handleAudioPacket_cons fuel adecode awake athread p rest hq, hh]
    exact ⟨h, rfl, h1, h3⟩
  · intro p rest hq hfuel hs hneg
    rw [handleAudioPacket_cons fuel adecode awake athread p rest hq,
      decodeLoop_negative adecode _CreateAudioPacket awake fuel 0 _ p hfuel hs hneg]

/-- Witness of C26. A video packet of 10 bytes whose first decode call consumes
4 bytes and whose second returns −1: the handler returns, with result 1 and the
packet freed once, 6 bytes left in it. An audio packet of 8 bytes whose first
decode call returns −1: the handler returns 1 at once and frees the packet. The
same audio packet with a decoder that consumes 4 bytes per call: the handler
returns and frees the packet once. -/
theorem handlers_return_code_and_free_packet_witness :
    (∃ r : HandlerResult Kit_VideoPacket Kit_VideoDecThread,
      _HandleVideoPacket 10 sampleFailingDecode (fun _ => id)
        (sampleWorker .KIT_DECTHREAD_RUNNING) = .done r ∧
      (r.ret ≠ 0 ↔ ∃ l ∈ r.lens, l < 0) ∧
      ∃ q : AVPacket, r.freed_input = [q] ∧ q.stream_index = 0 ∧
        q.dts = some 0 ∧ (r.ret = 0 → q.size ≤ 0)) ∧
    _HandleVideoPacket 10 sampleFailingDecode (fun _ => id)
        (sampleWorker .KIT_DECTHREAD_RUNNING)
      = .done
          { ret := 1,
            thread := { sampleVideoThread [{ pts := 0, frame := 7 }, { pts := 1 / 2, frame := 9 }]
                        with input := { size := 2, items := [] } },
            lens := [4, -1],
            freed_input := [{ stream_index := 0, size := 6 }],
            freed_output := [] } ∧
    _HandleAudioPacket 10 sampleFailingAudioDecode (fun _ => id) sampleAudioWorker
      = .done
          { ret := 1,
            thread := { sampleAudioWorker with input := { size := 3, items := [] } },
            lens := [-1],
            freed_input := [{ stream_index := 1, size := 8 }],
            freed_output := [] } ∧
    (∃ r : HandlerResult Kit_AudioPacket Kit_AudioDecThread,
      _HandleAudioPacket 10 sampleAudioDecode (fun _ => id) sampleAudioWorker = .done r ∧
      (r.ret ≠ 0 ↔ ∃ l ∈ r.lens, l < 0) ∧
      ∃ q : AVPacket, r.freed_input = [q] ∧ q.stream_index = 1 ∧
        q.dts = some 0 ∧ (r.ret = 0 → q.size ≤ 0)) :=
  have h := handlers_return_code_and_free_packet 10 sampleFailingDecode (fun _ => id)
    (sampleWorker .KIT_DECTHREAD_RUNNING) sampleFailingAudioDecode (fun _ => id)
    sampleAudioWorker
  ⟨h.2.2.1 { stream_index := 0, size := 10 } [] rfl (by decide)
      (fun k _ => by
        unfold sampleFailingDecode
        split_ifs <;> decide),
   rfl,
   h.2.2.2.2.2.2.2 { stream_index := 1, size := 8 } [] rfl (by decide) (by decide)
      (by decide),
   (handlers_return_code_and_free_packet 10 sampleFailingDecode (fun _ => id)
      (sampleWorker .KIT_DECTHREAD_RUNNING) sampleAudioDecode (fun _ => id)
      sampleAudioWorker).2.2.2.2.2.2.1 { stream_index := 1, size := 8 } [] rfl (by decide)
      (fun _ _ => by
        unfold sampleAudioDecode
        simp)⟩

/-- C29: for an input packet of size `n > 0` and a decoder whose decode calls
each return a length of at least 1, `_HandleVideoPacket` and
`_HandleAudioPacket` return (with result 0) as soon as the iteration budget is
at least `n`, after at most `n` decode calls. -/
theorem handlers_terminate_within_packet_size (fuel n : Nat)
    (vdecode : Nat → AVPacket → DecodeResult Nat)
    (vwake : Nat → Kit_Buffer Kit_VideoPacket → Kit_Buffer Kit_VideoPacket)
    (vthread : VideoThread)
    (adecode : Nat → AVPacket → DecodeResult (List Nat))
    (awake : Nat → Kit_Buffer Kit_AudioPacket → Kit_Buffer Kit_AudioPacket)
    (athread : AudioThread)
    (_hn : 0 < n) (hfuel : n ≤ fuel) :
    (∀ (p : AVPacket) (rest : List AVPacket), vthread.input.items = p :: rest →
      p.size = (n : Int) → (∀ (k : Nat) (q : AVPacket), 1 ≤ (vdecode k q).len) →
      ∃ r : HandlerResult Kit_VideoPacket Kit_VideoDecThread,
        _HandleVideoPacket fuel vdecode vwake vthread = .done r ∧
        r.ret = 0 ∧ r.lens.length ≤ n) ∧
    (∀ (p : AVPacket) (rest : List AVPacket), athread.input.items = p :: rest →
      p.size = (n : Int) → (∀ (k : Nat) (q : AVPacket), 1 ≤ (adecode k q).len) →
      ∃ r : HandlerResult Kit_AudioPacket Kit_AudioDecThread,
        _HandleAudioPacket fuel adecode awake athread = .done r ∧
        r.ret = 0 ∧ r.lens.length ≤ n) := by
  have hpos : (0 : Int) ≤ (n : Int) := Int.ofNat_nonneg n
  constructor
  · intro p rest hq hsize hlen
    obtain ⟨h, hh, hret, hcount⟩ := decodeLoop_terminates vdecode _CreateVideoPacket vwake
      hlen fuel 0 { vthread with input := { vthread.input with items := rest } } p
      (by rw [hsize]; exact_mod_cast hfuel)
    rw [handleVideoPacket_cons fuel vdecode vwake vthread p rest hq, hh]
    refine ⟨h, rfl, hret, ?_⟩
    rw [hsize, max_eq_left hpos] at hcount
    exact_mod_cast hcount
  · intro p rest hq hsize hlen
    obtain ⟨h, hh, hret, hcount⟩ := decodeLoop_terminates adecode _CreateAudioPacket awake
      hlen fuel 0 { athread with input := { athread.input with items := rest } } p
      (by rw [hsize]; exact_mod_cast hfuel)
    rw [handleAudioPacket_cons fuel adecode awake athread p rest hq, hh]
    refine ⟨h, rfl, hret, ?_⟩
    rw [hsize, max_eq_left hpos] at hcount
    exact_mod_cast hcount

/-- Witness of C29: a video packet of 10 bytes and an audio packet of 8 bytes,
with decoders that consume 4 bytes per call and a budget of 10 passes. -/
theorem handlers_terminate_within_packet_size_witness :
    (∃ r : HandlerResult Kit_VideoPacket Kit_VideoDecThread,
      _HandleVideoPacket 10 sampleVideoDecode (fun _ => id)
        (sampleWorker .KIT_DECTHREAD_RUNNING) = .done r ∧
      r.ret = 0 ∧ r.lens.length ≤ 10) ∧
    (∃ r : HandlerResult Kit_AudioPacket Kit_AudioDecThread,
      _HandleAudioPacket 10 sampleAudioDecode (fun _ => id) sampleAudioWorker = .done r ∧
      r.ret = 0 ∧ r.lens.length ≤ 8) :=
  ⟨(handlers_terminate_within_packet_size 10 10 sampleVideoDecode (fun _ => id)
      (sampleWorker .KIT_DECTHREAD_RUNNING) sampleAudioDecode (fun _ => id)
      sampleAudioWorker (by decide) (by decide)).1
      { stream_index := 0, size := 10 } [] rfl rfl
      (fun _ _ => by norm_num [sampleVideoDecode]),
   (handlers_terminate_within_packet_size 10 8 sampleVideoDecode (fun _ => id)
      (sampleWorker .KIT_DECTHREAD_RUNNING) sampleAudioDecode (fun _ => id)
      sampleAudioWorker (by decide) (by decide)).2
      { stream_index := 1, size := 8 } [] rfl rfl
      (fun _ _ => by norm_num [sampleAudioDecode])⟩

/-! ## Theorems: formats chosen at construction, audio bounds, duration -/

/-- A video decoder thread that was created carries the host pixel format that
`Kit_FindPixelFormat` chose for the pixel format of its codec context. -/
lemma created_video_thread_format (env : CreateEnv) (w w1 : World) (src : Kit_Source)
    (stream_index : Int) (thread : VideoThread)
    (h : Kit_CreateVideoDecoderThread env w src stream_index = (some thread, w1)) :
    thread.local.format.format = Kit_FindPixelFormat env.codec_ctx.pix_fmt := by
  unfold Kit_CreateVideoDecoderThread at h
  split_ifs at h
  · simp at h
  all_goals (dsimp only at h; split at h)
  all_goals first
    | (simp [Kit_FreeDecoderThread] at h; done)
    | (simp only [Prod.mk.injEq, Option.some.injEq] at h
       rw [← h.1])

/-- An audio decoder thread that was created carries the host audio format that
`Kit_FindAudioFormat` chose for the sample format of its codec context. -/
lemma created_audio_thread_format (env : CreateEnv) (w w1 : World) (src : Kit_Source)
    (stream_index : Int) (thread : AudioThread)
    (h : Kit_CreateAudioDecoderThread env w src stream_index = (some thread, w1)) :
    thread.local.format.format = (Kit_FindAudioFormat env.codec_ctx.sample_fmt).format := by
  unfold Kit_CreateAudioDecoderThread at h
  split_ifs at h
  · simp at h
  all_goals (dsimp only at h; split at h)
  all_goals first
    | (simp [Kit_FreeDecoderThread] at h; done)
    | (simp only [Prod.mk.injEq, Option.some.injEq] at h
       rw [← h.1])

/-- C28: the target formats chosen at decoder creation are always convertible:
for every `AVPixelFormat` `x`, `Kit_FindAVPixelFormat (Kit_FindPixelFormat x)`
is not `AV_PIX_FMT_NONE`, and for every `AVSampleFormat` `s`,
`Kit_FindAVSampleFormat` of the format output by `Kit_FindAudioFormat s` is not
`AV_SAMPLE_FMT_NONE`; so the format stored in every video or audio decoder
thread that was created converts to an AV format other than NONE. -/
theorem chosen_formats_are_convertible :
    (∀ x : AVPixelFormat,
      Kit_FindAVPixelFormat (Kit_FindPixelFormat x) ≠ .AV_PIX_FMT_NONE) ∧
    (∀ s : AVSampleFormat,
      Kit_FindAVSampleFormat ((Kit_FindAudioFormat s).format : Int)
        ≠ .AV_SAMPLE_FMT_NONE) ∧
    (∀ (env : CreateEnv) (w w1 : World) (src : Kit_Source) (stream_index : Int)
        (thread : VideoThread),
      Kit_CreateVideoDecoderThread env w src stream_index = (some thread, w1) →
      Kit_FindAVPixelFormat thread.local.format.format ≠ .AV_PIX_FMT_NONE) ∧
    (∀ (env : CreateEnv) (w w1 : World) (src : Kit_Source) (stream_index : Int)
        (thread : AudioThread),
      Kit_CreateAudioDecoderThread env w src stream_index = (some thread, w1) →
      Kit_FindAVSampleFormat (thread.local.format.format : Int) ≠ .AV_SAMPLE_FMT_NONE) := by
  have hpix : ∀ x : AVPixelFormat,
      Kit_FindAVPixelFormat (Kit_FindPixelFormat x) ≠ .AV_PIX_FMT_NONE := by
    intro x
    cases x <;> first
      | decide
      | (show Kit_FindAVPixelFormat SDL_PIXELFORMAT_ABGR8888 ≠ .AV_PIX_FMT_NONE
         decide)
  have hsmp : ∀ s : AVSampleFormat,
      Kit_FindAVSampleFormat ((Kit_FindAudioFormat s).format : Int)
        ≠ .AV_SAMPLE_FMT_NONE := by
    intro s
    cases s <;> first
      | decide
      | (show Kit_FindAVSampleFormat (AUDIO_S16SYS : Int) ≠ .AV_SAMPLE_FMT_NONE
         decide)
  refine ⟨hpix, hsmp, ?_, ?_⟩
  · intro env w w1 src stream_index thread h
    rw [created_video_thread_format env w w1 src stream_index thread h]
    exact hpix _
  · intro env w w1 src stream_index thread h
    rw [created_audio_thread_format env w w1 src stream_index thread h]
    exact hsmp _

/-- Witness of C28: the video thread created for stream 0 of the sample source
stores YV12, which converts to an AV format other than NONE. -/
theorem chosen_formats_are_convertible_witness :
    Kit_FindAVPixelFormat
      ((Kit_CreateVideoDecoderThread sampleCreateEnv emptyWorld subtitleSource 0).1.get
        rfl).local.format.format ≠ .AV_PIX_FMT_NONE :=
  chosen_formats_are_convertible.2.2.1 sampleCreateEnv emptyWorld
    (Kit_CreateVideoDecoderThread sampleCreateEnv emptyWorld subtitleSource 0).2
    subtitleSource 0
    ((Kit_CreateVideoDecoderThread sampleCreateEnv emptyWorld subtitleSource 0).1.get rfl)
    rfl

/-- C30: `Kit_GetPlayerDuration` returns the integer quotient of the duration
by `AV_TIME_BASE` (1000000), truncated toward zero, as a whole number of
seconds: every duration `d` with `0 ≤ d < 1000000` yields 0, and the result
never has a fractional part. -/
theorem player_duration_is_whole_seconds (player : Kit_Player) :
    Kit_GetPlayerDuration player
      = ((Int.tdiv player.src.format_ctx.duration 1000000 : Int) : ℚ) ∧
    (0 ≤ player.src.format_ctx.duration → player.src.format_ctx.duration < 1000000 →
      Kit_GetPlayerDuration player = 0) ∧
    (∃ k : Int, Kit_GetPlayerDuration player = (k : ℚ)) := by
  refine ⟨rfl, ?_, ⟨_, rfl⟩⟩
  intro h0 h1
  unfold Kit_GetPlayerDuration AV_TIME_BASE
  have hq : Int.tdiv player.src.format_ctx.duration 1000000 = 0 :=
    Int.tdiv_eq_zero_of_lt h0 h1
  rw [hq]
  simp


/-- Witness of C30: a duration of 999999 microseconds is reported as 0. -/
theorem player_duration_is_whole_seconds_witness :
    Kit_GetPlayerDuration
      { samplePlayer .KIT_STOPPED with
        src := { sampleSource with format_ctx := { nb_streams := 2, duration := 999999 } } }
      = 0 :=
  (player_duration_is_whole_seconds
    { samplePlayer .KIT_STOPPED with
      src := { sampleSource with format_ctx := { nb_streams := 2, duration := 999999 } } }).2.1
    (by decide) (by decide)

end Kitchensink
